import Mathlib

/-!
Shallow embedding of the Online Trail turn engine and room/session server
(Go sources: pkg/game/actions.go plus the game-state file, cmd/server/main.go,
cmd/server/session.go).  Go float64 resource arithmetic is modelled over ℚ;
the shared rand.Rand source is modelled as an explicit stream of uniform
draws in [0,1) (`Rng.floats`) and of integer draws (`Rng.ints`) that every
operation consumes in the order of the Go calls.  Narrative strings built
into the Go result text are dropped except where a claim inspects a message,
in which case the returned message is modelled as an inductive tag carrying
the same data the Go format string interpolates.
-/

namespace OnlineTrail

/-- Player kind (`PlayerType` in the source): human or CPU. -/
inductive PlayerType where
  | human
  | cpu
deriving DecidableEq, Repr

/-- Bool shim for the Go comparison `p.Type == PlayerTypeCPU`, written as a
constructor match so concrete states evaluate by plain rewriting. -/
def PlayerType.isCPU : PlayerType → Bool
  | .cpu => true
  | .human => false

/-- Bool shim for the Go comparison `p.Type == PlayerTypeHuman`. -/
def PlayerType.isHuman : PlayerType → Bool
  | .human => true
  | .cpu => false

/-- One member of a wagon party (`PartyMember`). -/
structure PartyMember where
  name : String
  alive : Bool
  health : Int
  injured : Bool
deriving DecidableEq, Repr

/-- A player (`Player`).  The Go `InputChan`/`OutputChan` transport fields are
out of scope and omitted.  The Go `ID` field is mutable and rebound on
reconnection. -/
structure Player where
  id : String
  name : String
  ptype : PlayerType
  party : List PartyMember
  connected : Bool
  shootingRank : Int
  alive : Bool
deriving DecidableEq, Repr

instance : Inhabited Player :=
  ⟨{ id := "", name := "", ptype := .human, party := [], connected := false,
     shootingRank := 0, alive := false }⟩

/-- Turn phases (`TurnPhase`). -/
inductive TurnPhase where
  | start
  | mainMenu
  | fort
  | hunting
  | eating
  | riders
  | events
  | mountains
  | finalTurn
  | gameOver
  | shooting
  | illness
  | riverCrossing
deriving DecidableEq, Repr

/-- Bool shim for the Go comparison `TurnPhase == PhaseFort`. -/
def TurnPhase.isFort : TurnPhase → Bool
  | .fort => true
  | _ => false

/-- Bool shim for the Go comparison `TurnPhase == PhaseHunting`. -/
def TurnPhase.isHunting : TurnPhase → Bool
  | .hunting => true
  | _ => false

/-- Bool shim for the Go comparison `TurnPhase == PhaseRiders`. -/
def TurnPhase.isRiders : TurnPhase → Bool
  | .riders => true
  | _ => false

/-- Abandoned-wagon loot record (`LootSite`).  Timestamps are modelled as ℚ
seconds. -/
structure LootSite where
  id : String
  mileage : ℚ
  playerName : String
  food : ℚ
  bullets : ℚ
  clothing : ℚ
  miscSupplies : ℚ
  cash : ℚ
  oxenCost : ℚ
  dateCreated : ℚ
  isLooted : Bool
  lootedBy : String
  lootedAt : ℚ
deriving DecidableEq, Repr

instance : Inhabited LootSite :=
  ⟨{ id := "", mileage := 0, playerName := "", food := 0, bullets := 0,
     clothing := 0, miscSupplies := 0, cash := 0, oxenCost := 0,
     dateCreated := 0, isLooted := false, lootedBy := "", lootedAt := 0 }⟩

/-- Explicit random source replacing the Go `rand.Rand`: a stream of float
draws (each meant to lie in [0,1), as `rand.Float64` guarantees) and a
stream of integer draws (`rand.Intn n` is modelled as the next stream
element reduced mod n).  An exhausted stream yields 0. -/
structure Rng where
  floats : List ℚ
  ints : List ℕ
deriving DecidableEq, Repr

/-- Draw the next float (`rand.Float64`). -/
def Rng.nextFloat : Rng → ℚ × Rng
  | ⟨[], is⟩ => (0, ⟨[], is⟩)
  | ⟨f :: fs, is⟩ => (f, ⟨fs, is⟩)

/-- Draw the next bounded integer (`rand.Intn n`).  All call sites in the
source pass n > 0. -/
def Rng.nextInt : Rng → ℕ → ℕ × Rng
  | ⟨fs, []⟩, _ => (0, ⟨fs, []⟩)
  | ⟨fs, i :: is⟩, n => (i % n, ⟨fs, is⟩)

/-- The float stream is a faithful `rand.Float64` source: all draws in [0,1). -/
def Rng.Bounded (r : Rng) : Prop := ∀ x ∈ r.floats, 0 ≤ x ∧ x < 1

instance (r : Rng) : Decidable r.Bounded := by
  unfold Rng.Bounded; infer_instance

/-- The authoritative journey state (`GameState`).  `Rand` is the explicit
stream; `EventLog`, `DistanceTraveled` and the channel fields are
display-only and omitted. -/
structure GameState where
  players : List Player
  currentPlayerIdx : ℕ
  turnNumber : ℕ
  week : ℕ
  day : ℕ
  mileage : ℚ
  food : ℚ
  bullets : ℚ
  clothing : ℚ
  miscSupplies : ℚ
  cash : ℚ
  oxenCost : ℚ
  turnPhase : TurnPhase
  gameOver : Bool
  win : Bool
  finalDate : String
  rng : Rng
  pendingRiderHostile : Bool
  pendingEatingLevel : Int
  pendingRiderCount : ℕ
  huntWord : String
  fortAvailable : Bool
  lootSites : List LootSite
deriving DecidableEq, Repr

/-- `TrailLength = 4500` (miles), compared against float mileage. -/
def TrailLength : ℚ := 4500

/-- `MountainThreshold = 2500`. -/
def MountainThreshold : ℚ := 2500

/-- Draw the next float from the state rand source. -/
def GameState.nextFloat (g : GameState) : ℚ × GameState :=
  let fr := g.rng.nextFloat
  (fr.1, { g with rng := fr.2 })

/-- Draw the next bounded integer from the state rand source. -/
def GameState.nextIntn (g : GameState) (n : ℕ) : ℕ × GameState :=
  let ir := g.rng.nextInt n
  (ir.1, { g with rng := ir.2 })

/-- The player the Go pointer `p` refers to: index i of `g.Players`.  An out
of range index models a nil pointer. -/
def GameState.player? (g : GameState) (i : ℕ) : Option Player :=
  g.players.get? i

/-- Whether the player at index i exists and is alive (`p.Alive`). -/
def GameState.playerAlive (g : GameState) (i : ℕ) : Bool :=
  match g.players.get? i with
  | some p => p.alive
  | none => false

/-- Whether the player at index i exists and is a CPU player. -/
def GameState.playerIsCPU (g : GameState) (i : ℕ) : Bool :=
  match g.players.get? i with
  | some p => p.ptype.isCPU
  | none => false

/-- `GameState.ClampResources`: floors every resource, mileage, and the oxen
scalar at zero. -/
def GameState.clampResources (g : GameState) : GameState :=
  { g with
    food := if g.food < 0 then 0 else g.food
    bullets := if g.bullets < 0 then 0 else g.bullets
    clothing := if g.clothing < 0 then 0 else g.clothing
    miscSupplies := if g.miscSupplies < 0 then 0 else g.miscSupplies
    cash := if g.cash < 0 then 0 else g.cash
    mileage := if g.mileage < 0 then 0 else g.mileage
    oxenCost := if g.oxenCost < 0 then 0 else g.oxenCost }

/-- `GameState.CheckAllPlayersDead`: sets `GameOver` when no human player is
alive.  The Go bool return value is unused at the call sites modelled here. -/
def GameState.checkAllPlayersDead (g : GameState) : GameState :=
  if g.players.any (fun p => p.ptype.isHuman && p.alive) then g
  else { g with gameOver := true }

/-- `GameState.DamagePartyMember`: subtract health from member `memberIdx` of
player i; at ≤ 0 health the member dies, and if it is the leader (member 0)
the player is out and all-dead is checked.  The Go negative-index guard is
vacuous over ℕ. -/
def GameState.damagePartyMember (g : GameState) (i memberIdx : ℕ) (amount : Int) : GameState :=
  match g.players.get? i with
  | none => g
  | some p =>
    match p.party.get? memberIdx with
    | none => g
    | some m =>
      if !m.alive then g
      else
        let newHealth := m.health - amount
        if newHealth ≤ 0 then
          let m2 := { m with health := 0, alive := false }
          if memberIdx = 0 then
            let p2 := { p with party := p.party.set memberIdx m2, alive := false }
            GameState.checkAllPlayersDead { g with players := g.players.set i p2 }
          else
            { g with players := g.players.set i { p with party := p.party.set memberIdx m2 } }
        else
          let m2 := { m with health := newHealth, injured := true }
          { g with players := g.players.set i { p with party := p.party.set memberIdx m2 } }

/-- `GameState.DamageRandomMember`: picks a uniformly random alive member of
player i and damages them. -/
def GameState.damageRandomMember (g : GameState) (i : ℕ) (amount : Int) : GameState :=
  match g.players.get? i with
  | none => g
  | some p =>
    let aliveIdx := (List.range p.party.length).filter
      (fun j => match p.party.get? j with
        | some m => m.alive
        | none => false)
    if aliveIdx.length = 0 then g
    else
      let kg := g.nextIntn aliveIdx.length
      GameState.damagePartyMember kg.2 i (aliveIdx.getD kg.1 0) amount

/-- A trade item of the fixed fort price table (`FortItem`). -/
structure FortItem where
  price : ℚ
  qty : ℚ
  label : String
deriving DecidableEq, Repr

/-- `GetFortPrices`: the fixed price table, as a partial lookup on the item
key (the Go map access `prices[item]`). -/
def getFortPrices : String → Option FortItem
  | "food" => some { price := 10, qty := 25, label := "Food Pack (25 lbs)" }
  | "bullets" => some { price := 5, qty := 50, label := "Ammo Box (50 rounds)" }
  | "clothing" => some { price := 5, qty := 5, label := "Clothing (5 sets)" }
  | "misc" => some { price := 5, qty := 5, label := "Supply Kit (5 kits)" }
  | _ => none

/-- Result tag of `GameState.HandleFortBuy`, carrying the data the Go message
format string interpolates. -/
inductive FortBuyMsg where
  | notAtFort
  | invalidQty
  | unknownItem
  | notEnoughCash (need : ℚ) (cashHave : ℚ)
  | bought (gained : ℚ) (item : String) (cost : ℚ)
deriving DecidableEq, Repr

/-- `GameState.HandleFortBuy`. -/
def GameState.handleFortBuy (g : GameState) (item : String) (qty : Int) :
    FortBuyMsg × GameState :=
  if !g.turnPhase.isFort then (.notAtFort, g)
  else if qty ≤ 0 then (.invalidQty, g)
  else
    match getFortPrices item with
    | none => (.unknownItem, g)
    | some fi =>
      let cost := fi.price * (qty : ℚ)
      if cost > g.cash then (.notEnoughCash cost g.cash, g)
      else
        let g1 := { g with cash := g.cash - cost }
        let gained := fi.qty * (qty : ℚ)
        let g2 :=
          if item = "food" then { g1 with food := g1.food + gained }
          else if item = "bullets" then { g1 with bullets := g1.bullets + gained }
          else if item = "clothing" then { g1 with clothing := g1.clothing + gained }
          else if item = "misc" then { g1 with miscSupplies := g1.miscSupplies + gained }
          else g1
        (.bought gained item cost, g2.clampResources)

/-- Result tag of `GameState.HandleFortSell`, carrying the data the Go
message format string interpolates. -/
inductive FortSellMsg where
  | notAtFort
  | invalidQty
  | unknownItem
  | notEnoughStock (item : String) (stockHave : ℚ) (need : ℚ)
  | sold (amount : ℚ) (item : String) (earnings : ℚ)
deriving DecidableEq, Repr

/-- `GameState.HandleFortSell`: sell at half the buy price; each item branch
checks stock before deducting; the credit and clamp are the shared tail of
the Go function. -/
def GameState.handleFortSell (g : GameState) (item : String) (qty : Int) :
    FortSellMsg × GameState :=
  if !g.turnPhase.isFort then (.notAtFort, g)
  else if qty ≤ 0 then (.invalidQty, g)
  else
    match getFortPrices item with
    | none => (.unknownItem, g)
    | some fi =>
      let sellPrice := fi.price * (1 / 2 : ℚ)
      let amount := fi.qty * (qty : ℚ)
      let earnings := sellPrice * (qty : ℚ)
      let credit : GameState → FortSellMsg × GameState := fun g2 =>
        (.sold amount item earnings,
         GameState.clampResources { g2 with cash := g2.cash + earnings })
      if item = "food" then
        if g.food < amount then (.notEnoughStock "food" g.food amount, g)
        else credit { g with food := g.food - amount }
      else if item = "bullets" then
        if g.bullets < amount then (.notEnoughStock "bullets" g.bullets amount, g)
        else credit { g with bullets := g.bullets - amount }
      else if item = "clothing" then
        if g.clothing < amount then (.notEnoughStock "clothing" g.clothing amount, g)
        else credit { g with clothing := g.clothing - amount }
      else if item = "misc" then
        if g.miscSupplies < amount then (.notEnoughStock "misc" g.miscSupplies amount, g)
        else credit { g with miscSupplies := g.miscSupplies - amount }
      else credit g

/-- `GameState.HandleFortLeave`: return to the main menu. -/
def GameState.handleFortLeave (g : GameState) : GameState :=
  { g with turnPhase := TurnPhase.mainMenu }

/-- `GameState.calculateAccuracy`: clamp `shootTime*3600 - (rank-1)` into
[0,9]; lower is better. -/
def calculateAccuracy (shootTime : ℚ) (shootingRank : Int) : ℚ :=
  let baseTime := shootTime * 3600
  let a := baseTime - ((shootingRank : ℚ) - 1)
  let a := if a ≤ 0 then 0 else a
  if a > 9 then 9 else a

/-- `GameState.getShootingTime`: CPU players draw a random reflex time;
human players return 0 (their reflex enters through `reactionTimeMs`
instead). -/
def GameState.getShootingTime (g : GameState) (p : Player) : ℚ × GameState :=
  if p.ptype.isCPU then
    let fg := g.nextFloat
    ((1 / 2 : ℚ) + fg.1 * (3 / 2 : ℚ) - ((p.shootingRank : ℚ) - 1) * (3 / 20 : ℚ), fg.2)
  else (0, g)

/-- `eventWagonBreakdown`. -/
def GameState.eventWagonBreakdown (g : GameState) (_i : ℕ) : GameState :=
  let fg := g.nextFloat
  { fg.2 with mileage := fg.2.mileage - (15 + fg.1 * 5),
              miscSupplies := fg.2.miscSupplies - 8 }

/-- `eventOxInjury`. -/
def GameState.eventOxInjury (g : GameState) (_i : ℕ) : GameState :=
  { g with mileage := g.mileage - 25, oxenCost := g.oxenCost - 20 }

/-- `eventDaughterBrokenArm`: two draws, then damage to the daughter
(member 3) if present and alive. -/
def GameState.eventDaughterBrokenArm (g : GameState) (i : ℕ) : GameState :=
  let f1 := g.nextFloat
  let f2 := f1.2.nextFloat
  let g1 := { f2.2 with mileage := f2.2.mileage - (5 + f1.1 * 4),
                        miscSupplies := f2.2.miscSupplies - (2 + f2.1 * 3) }
  match g1.players.get? i with
  | some p =>
    match p.party.get? 3 with
    | some m => if m.alive then g1.damagePartyMember i 3 10 else g1
    | none => g1
  | none => g1

/-- `eventOxWandersOff`. -/
def GameState.eventOxWandersOff (g : GameState) (_i : ℕ) : GameState :=
  { g with mileage := g.mileage - 17 }

/-- `eventSonGetsLost`: damage to the son (member 2) if present and alive. -/
def GameState.eventSonGetsLost (g : GameState) (i : ℕ) : GameState :=
  let g1 := { g with mileage := g.mileage - 10 }
  match g1.players.get? i with
  | some p =>
    match p.party.get? 2 with
    | some m => if m.alive then g1.damagePartyMember i 2 8 else g1
    | none => g1
  | none => g1

/-- `eventUnsafeWater`. -/
def GameState.eventUnsafeWater (g : GameState) (i : ℕ) : GameState :=
  let fg := g.nextFloat
  let g1 := { fg.2 with mileage := fg.2.mileage - (10 + fg.1 * 10) }
  g1.damageRandomMember i 8

/-- `eventHeavyRains`: in the mountains it becomes a cold-weather clothing
check; on the plains it costs time and supplies. -/
def GameState.eventHeavyRains (g : GameState) (i : ℕ) : GameState :=
  if g.mileage > MountainThreshold then
    let fg := g.nextFloat
    if fg.2.clothing > 22 + fg.1 * 4 then fg.2
    else fg.2.damageRandomMember i 12
  else
    let g1 := { g with food := g.food - 10, bullets := g.bullets - 50,
                       miscSupplies := g.miscSupplies - 15 }
    let fg := g1.nextFloat
    { fg.2 with mileage := fg.2.mileage - (10 + fg.1 * 10) }

/-- `eventBandits`: CPU-baseline shootout; running out of bullets costs a
cash share, winning loots the bandit camp. -/
def GameState.eventBandits (g : GameState) (i : ℕ) : GameState :=
  let cpuStandIn : Player := { id := "", name := "", ptype := .cpu, party := [],
                               connected := false, shootingRank := 0, alive := false }
  let st := g.getShootingTime cpuStandIn
  let accuracy := calculateAccuracy st.1 3
  let g1 := { st.2 with bullets := st.2.bullets - 20 * accuracy }
  if g1.bullets < (0 : ℚ) then
    let g2 := { g1 with cash := g1.cash / 3 - 20, oxenCost := g1.oxenCost - 20,
                        miscSupplies := g1.miscSupplies - 5 }
    g2.damageRandomMember i 30
  else if accuracy ≤ 1 then
    let f1 := g1.nextFloat
    let f2 := f1.2.nextFloat
    let f3 := f2.2.nextFloat
    let g2 := { f3.2 with cash := f3.2.cash + (30 + f1.1 * 50),
                          food := f3.2.food + (15 + f2.1 * 25),
                          bullets := f3.2.bullets + (30 + f3.1 * 70) }
    g2.clampResources
  else
    let g2 := { g1 with oxenCost := g1.oxenCost - 20, miscSupplies := g1.miscSupplies - 5 }
    g2.damageRandomMember i 20

/-- `eventFireInWagon`. -/
def GameState.eventFireInWagon (g : GameState) (i : ℕ) : GameState :=
  let f1 := g.nextFloat
  let g1 := { f1.2 with food := f1.2.food - 40, bullets := f1.2.bullets - 40,
                        miscSupplies := f1.2.miscSupplies - (3 + f1.1 * 8),
                        mileage := f1.2.mileage - 15 }
  let f2 := g1.nextFloat
  if f2.1 < (3 / 10 : ℚ) then f2.2.damageRandomMember i 15 else f2.2

/-- `eventLostInFog`. -/
def GameState.eventLostInFog (g : GameState) (_i : ℕ) : GameState :=
  let fg := g.nextFloat
  { fg.2 with mileage := fg.2.mileage - (10 + fg.1 * 5) }

/-- `eventSnakeBite`. -/
def GameState.eventSnakeBite (g : GameState) (i : ℕ) : GameState :=
  let g1 := { g with bullets := g.bullets - 10, miscSupplies := g.miscSupplies - 5 }
  if g1.miscSupplies < 0 then g1.damageRandomMember i 40
  else g1.damageRandomMember i 25

/-- `eventWagonSwamped`. -/
def GameState.eventWagonSwamped (g : GameState) (_i : ℕ) : GameState :=
  let fg := g.nextFloat
  { fg.2 with food := fg.2.food - 30, clothing := fg.2.clothing - 20,
              mileage := fg.2.mileage - (20 + fg.1 * 20) }

/-- `eventWildAnimals`: CPU-baseline shootout over food and clothing. -/
def GameState.eventWildAnimals (g : GameState) (i : ℕ) : GameState :=
  let cpuStandIn : Player := { id := "", name := "", ptype := .cpu, party := [],
                               connected := false, shootingRank := 0, alive := false }
  let st := g.getShootingTime cpuStandIn
  let accuracy := calculateAccuracy st.1 3
  if st.2.bullets < 40 then st.2.damageRandomMember i 35
  else
    let g1 := { st.2 with bullets := st.2.bullets - 20 * accuracy,
                          clothing := st.2.clothing - accuracy * 4,
                          food := st.2.food - accuracy * 8 }
    if accuracy ≤ 2 then g1
    else g1.damageRandomMember i 15

/-- `eventHailStorm`. -/
def GameState.eventHailStorm (g : GameState) (i : ℕ) : GameState :=
  let f1 := g.nextFloat
  let g1 := { f1.2 with mileage := f1.2.mileage - (5 + f1.1 * 10),
                        bullets := f1.2.bullets - 20 }
  let f2 := g1.nextFloat
  let g2 := { f2.2 with miscSupplies := f2.2.miscSupplies - (4 + f2.1 * 3) }
  let f3 := g2.nextFloat
  if f3.1 < (1 / 5 : ℚ) then f3.2.damageRandomMember i 10 else f3.2

/-- `eventBadFood`. -/
def GameState.eventBadFood (g : GameState) (i : ℕ) : GameState :=
  g.damageRandomMember i 12

/-- `eventAbandonedWagon`: a lucky find of cash, food and bullets. -/
def GameState.eventAbandonedWagon (g : GameState) (_i : ℕ) : GameState :=
  let f1 := g.nextFloat
  let f2 := f1.2.nextFloat
  let f3 := f2.2.nextFloat
  let g1 := { f3.2 with cash := f3.2.cash + (20 + f1.1 * 30),
                        food := f3.2.food + (20 + f2.1 * 40),
                        bullets := f3.2.bullets + (50 + f3.1 * 100) }
  g1.clampResources

/-- Dispatch into the ordered event table of `HandleRandomEvent` (index into
the Go `events` slice). -/
def GameState.runEvent (g : GameState) (i : ℕ) : ℕ → GameState
  | 0 => g.eventWagonBreakdown i
  | 1 => g.eventOxInjury i
  | 2 => g.eventDaughterBrokenArm i
  | 3 => g.eventOxWandersOff i
  | 4 => g.eventSonGetsLost i
  | 5 => g.eventUnsafeWater i
  | 6 => g.eventHeavyRains i
  | 7 => g.eventBandits i
  | 8 => g.eventFireInWagon i
  | 9 => g.eventLostInFog i
  | 10 => g.eventSnakeBite i
  | 11 => g.eventWagonSwamped i
  | 12 => g.eventWildAnimals i
  | 13 => g.eventHailStorm i
  | 14 => g.eventBadFood i
  | _ => g

/-- The cumulative-probability thresholds of `HandleRandomEvent`. -/
def eventThresholds : List ℚ := [6, 11, 13, 15, 17, 22, 32, 35, 37, 42, 44, 54, 64, 69, 100]

/-- `GameState.HandleRandomEvent`: one uniform draw against the cumulative
thresholds selects the event; afterwards a separate 5 percent draw may add
the abandoned-wagon find. -/
def GameState.handleRandomEvent (g : GameState) (i : ℕ) : GameState :=
  let fg := g.nextFloat
  let r := fg.1 * 100
  let eventIdx := (eventThresholds.findIdx? (fun t => decide (r < t))).getD 0
  let g1 := fg.2.runEvent i eventIdx
  let f2 := g1.nextFloat
  if f2.1 < (1 / 20 : ℚ) then f2.2.eventAbandonedWagon i else f2.2

/-- `GameState.HandleIllness`: illness probability by eating tier; severity
tiers cost supplies, mileage, cash and health; running out of medical
supplies costs extra health. -/
def GameState.handleIllness (g : GameState) (i : ℕ) (eatingLevel : Int) : GameState :=
  let illnessChance : ℚ :=
    if eatingLevel = 1 then 13 / 20
    else if eatingLevel = 2 then 1 / 2
    else if eatingLevel = 3 then 1 / 4
    else 0
  let fg := g.nextFloat
  if fg.1 < illnessChance then
    let sg := fg.2.nextFloat
    let g1 :=
      if sg.1 < (33 / 100 : ℚ) then
        let g1 := { sg.2 with mileage := sg.2.mileage - 5,
                              miscSupplies := sg.2.miscSupplies - 2 }
        g1.damageRandomMember i 10
      else if sg.1 < (66 / 100 : ℚ) then
        let g1 := { sg.2 with mileage := sg.2.mileage - 5,
                              miscSupplies := sg.2.miscSupplies - 5 }
        g1.damageRandomMember i 20
      else
        let g1 := { sg.2 with miscSupplies := sg.2.miscSupplies - 10,
                              cash := sg.2.cash - 20 }
        g1.damageRandomMember i 30
    if g1.miscSupplies < 0 && !g1.gameOver then g1.damageRandomMember i 40
    else g1
  else fg.2

/-- `GameState.HandleMountains`: rugged-mountain delays plus the blizzard
sub-event in the final stretch; ends with a clamp. -/
def GameState.handleMountains (g : GameState) (i : ℕ) : GameState :=
  let mileRef := g.mileage / 100
  let baseChance := mileRef - MountainThreshold / 100
  let mountainFactor := 9 - (baseChance * baseChance + 72) / (baseChance * baseChance + 12)
  let fg := g.nextFloat
  let g1 :=
    if fg.1 * 10 * mountainFactor > 0 then
      let rg := fg.2.nextFloat
      if rg.1 ≤ (1 / 10 : ℚ) then
        { rg.2 with mileage := rg.2.mileage - 60 }
      else if rg.1 ≤ (11 / 100 : ℚ) then
        let f3 := rg.2.nextFloat
        { f3.2 with miscSupplies := f3.2.miscSupplies - 5,
                    bullets := f3.2.bullets - 20,
                    mileage := f3.2.mileage - (20 + f3.1 * 30) }
      else
        let f3 := rg.2.nextFloat
        { f3.2 with mileage := f3.2.mileage - (45 + f3.1 * 50) }
    else fg.2
  let g2 :=
    if g1.mileage > 3800 ∧ g1.mileage < TrailLength then
      let bg := g1.nextFloat
      if bg.1 < (3 / 10 : ℚ) then
        let f2 := bg.2.nextFloat
        let g2 := { f2.2 with food := f2.2.food - 25,
                              miscSupplies := f2.2.miscSupplies - 10,
                              bullets := f2.2.bullets - 30,
                              mileage := f2.2.mileage - (30 + f2.1 * 40) }
        let f3 := g2.nextFloat
        if f3.2.clothing < (18 : ℚ) + f3.1 * 2 then f3.2.handleIllness i 2 else f3.2
      else bg.2
    else g1
  g2.clampResources

/-- `GameState.HandleRiverCrossing`: four mileage-banded rivers, each with an
independent mishap probability, penalty profile, clamp, and member damage. -/
def GameState.handleRiverCrossing (g : GameState) (i : ℕ) : GameState :=
  if 600 ≤ g.mileage ∧ g.mileage < 1200 then
    let fg := g.nextFloat
    if fg.1 < (3 / 20 : ℚ) then
      let f2 := fg.2.nextFloat
      let g1 := { f2.2 with food := f2.2.food - 30, clothing := f2.2.clothing - 20,
                            mileage := f2.2.mileage - (f2.1 * 20 + 20) }
      g1.clampResources.damageRandomMember i 5
    else fg.2
  else if 2000 ≤ g.mileage ∧ g.mileage < 2600 then
    let fg := g.nextFloat
    if fg.1 < (1 / 5 : ℚ) then
      let f2 := fg.2.nextFloat
      let g1 := { f2.2 with food := f2.2.food - 40,
                            miscSupplies := f2.2.miscSupplies - 10,
                            mileage := f2.2.mileage - (f2.1 * 30 + 25) }
      g1.clampResources.damageRandomMember i 10
    else fg.2
  else if 3000 ≤ g.mileage ∧ g.mileage < 3400 then
    let fg := g.nextFloat
    if fg.1 < (11 / 50 : ℚ) then
      let f2 := fg.2.nextFloat
      let g1 := { f2.2 with food := f2.2.food - 35, bullets := f2.2.bullets - 30,
                            mileage := f2.2.mileage - (f2.1 * 25 + 20) }
      g1.clampResources.damageRandomMember i 15
    else fg.2
  else if 3800 ≤ g.mileage ∧ g.mileage < 4200 then
    let fg := g.nextFloat
    if fg.1 < (1 / 4 : ℚ) then
      let f2 := fg.2.nextFloat
      let g1 := { f2.2 with food := f2.2.food - 50, clothing := f2.2.clothing - 30,
                            mileage := f2.2.mileage - (f2.1 * 40 + 30) }
      g1.clampResources.damageRandomMember i 20
    else fg.2
  else g

/-- `GameState.CheckRiders`: the rider-appearance draw, a non-monotonic
function of mileage; on success fills the pending hostile flag and count. -/
def GameState.checkRiders (g : GameState) : Bool × GameState :=
  let baseChance := g.mileage / 100 - 4
  let chance0 := (baseChance * baseChance + 72) / (baseChance * baseChance + 12)
  let fg := g.nextFloat
  let chance := chance0 * 10 * fg.1
  if chance > 1 then (false, fg.2)
  else
    let hg := fg.2.nextFloat
    let kg := hg.2.nextIntn 8
    (true, { kg.2 with pendingRiderHostile := hg.1 < (4 / 5 : ℚ),
                       pendingRiderCount := 3 + kg.1 })

/-- The shared tail of `ResolveRiderTactic`: the out-of-bullets penalty check
followed by the final clamp.  (The Go code reaches it by falling out of the
switch; the hostile proceed-tactic peaceful outcome returns early and skips
it.) -/
def GameState.riderAftermath (g : GameState) (i : ℕ) : GameState :=
  let g1 := if g.bullets < (0 : ℚ) then g.damageRandomMember i 50 else g
  g1.clampResources

/-- `GameState.ResolveRiderTactic`: resolve a rider encounter with tactic
1 = run, 2 = attack, 3 = continue, 4 = circle wagons, against the pending
hostile flag.  A tactic outside 1 to 4 matches no switch case and falls
straight to the aftermath. -/
def GameState.resolveRiderTactic (g : GameState) (i : ℕ) (tactic : Int) : GameState :=
  let hostile := g.pendingRiderHostile
  if hostile then
    if tactic = 1 then
      let g1 := { g with mileage := g.mileage + 20,
                         miscSupplies := g.miscSupplies - 15,
                         bullets := g.bullets - 50,
                         oxenCost := g.oxenCost - 40 }
      let fg := g1.nextFloat
      let g2 := if fg.1 < (3 / 10 : ℚ) then fg.2.damageRandomMember i 15 else fg.2
      g2.riderAftermath i
    else if tactic = 2 then
      let p := g.players.getD i default
      let st := g.getShootingTime p
      let accuracy := calculateAccuracy st.1 p.shootingRank
      let g1 := { st.2 with bullets := st.2.bullets - (accuracy * 40 + 80) }
      let g2 :=
        if accuracy ≤ 1 then g1
        else if accuracy > 4 then
          ({ g1 with cash := g1.cash - 20 }).damageRandomMember i 25
        else g1.damageRandomMember i 15
      g2.riderAftermath i
    else if tactic = 3 then
      let fg := g.nextFloat
      if fg.1 > (4 / 5 : ℚ) then fg.2.clampResources
      else
        let g1 := { fg.2 with bullets := fg.2.bullets - 50,
                              miscSupplies := fg.2.miscSupplies - 15 }
        let g2 := g1.damageRandomMember i 20
        g2.riderAftermath i
    else if tactic = 4 then
      let p := g.players.getD i default
      let st := g.getShootingTime p
      let accuracy := calculateAccuracy st.1 p.shootingRank
      let g1 := { st.2 with bullets := st.2.bullets - (accuracy * 30 + 80),
                            mileage := st.2.mileage - 25 }
      let g2 :=
        if accuracy ≤ 1 then g1
        else if accuracy > 4 then
          ({ g1 with cash := g1.cash - 20 }).damageRandomMember i 30
        else g1.damageRandomMember i 15
      g2.riderAftermath i
    else g.riderAftermath i
  else
    if tactic = 1 then
      ({ g with mileage := g.mileage + 15, oxenCost := g.oxenCost - 10 }).riderAftermath i
    else if tactic = 2 then
      let g1 := { g with mileage := g.mileage - 5, bullets := g.bullets - 50 }
      (g1.damageRandomMember i 20).riderAftermath i
    else if tactic = 3 then
      g.riderAftermath i
    else if tactic = 4 then
      ({ g with mileage := g.mileage - 20 }).riderAftermath i
    else g.riderAftermath i

/-- `GameState.cpuChooseTactic`: weighted choice 0.2 / 0.3 / 0.2 / 0.3 over
tactics 1 to 4 when hostile, otherwise proceed. -/
def GameState.cpuChooseTactic (g : GameState) (hostile : Bool) : Int × GameState :=
  if !hostile then (3, g)
  else
    let fg := g.nextFloat
    if fg.1 ≤ (1 / 5 : ℚ) then (1, fg.2)
    else if fg.1 ≤ (1 / 2 : ℚ) then (2, fg.2)
    else if fg.1 ≤ (7 / 10 : ℚ) then (3, fg.2)
    else if fg.1 ≤ 1 then (4, fg.2)
    else (3, fg.2)

/-- The fixed hunting prompt words. -/
def shootingWords : List String := [ "BANG", "BLAM", "POW", "WHAM" ]

/-- `GameState.GetShootingPrompt`: a uniformly chosen prompt word. -/
def GameState.getShootingPrompt (g : GameState) : String × GameState :=
  let kg := g.nextIntn shootingWords.length
  (shootingWords.getD kg.1 "", kg.2)

/-- `GameState.calculateArrivalDate`: day arithmetic from March 29, 1847 plus
seven days per turn; the Gregorian decomposition is modelled by a month walk
(the label year is fixed at 1847 exactly as the Go format string does). -/
def arrivalMonths : List (String × ℕ) :=
  [ ("March", 31), ("April", 30), ("May", 31), ("June", 30), ("July", 31),
    ("August", 31), ("September", 30), ("October", 31), ("November", 30),
    ("December", 31), ("January", 31), ("February", 29), ("March", 31),
    ("April", 30), ("May", 31), ("June", 30), ("July", 31), ("August", 31),
    ("September", 30), ("October", 31), ("November", 30), ("December", 31),
    ("January", 31), ("February", 28) ]

/-- Month walk for the arrival date: day index 0 is March 1, 1847. -/
def monthWalk : ℕ → List (String × ℕ) → String × ℕ
  | d, [] => ("December", d + 1)
  | d, (m, len) :: rest => if d < len then (m, d + 1) else monthWalk (d - len) rest

/-- `GameState.calculateArrivalDate` on the turn counter. -/
def calculateArrivalDate (turnNumber : ℕ) : String :=
  let md := monthWalk (28 + turnNumber * 7) arrivalMonths
  md.1 ++ " " ++ toString md.2 ++ ", 1847"

/-- `GameState.HandleFinalTurn`: the win celebration; sets the finished and
win flags and the arrival date.  The survivor summary is narrative only. -/
def GameState.handleFinalTurn (g : GameState) (_i : ℕ) : GameState :=
  { g with gameOver := true, win := true,
           finalDate := calculateArrivalDate g.turnNumber }

/-- `GameState.HandleHunting`: CPU auto-resolved hunting (ammunition check,
shot resolution, reduced hunting travel, clamp, win check). -/
def GameState.handleHunting (g : GameState) (i : ℕ) : GameState :=
  if g.bullets < (50 : ℚ) then g
  else
    let g0 := { g with bullets := g.bullets - 50 }
    let p := g0.players.getD i default
    let st := g0.getShootingTime p
    let accuracy := calculateAccuracy st.1 p.shootingRank
    let g1 :=
      if accuracy ≤ 1 then
        let fg := st.2.nextFloat
        { fg.2 with food := fg.2.food + (52 + fg.1 * 6) }
      else
        let fg := st.2.nextFloat
        if fg.1 * 100 < 13 * accuracy then fg.2
        else { fg.2 with food := fg.2.food + (48 - 2 * accuracy) }
    let g2 := { g1 with bullets := g1.bullets - (10 + 3 * accuracy) }
    let g2 := if g2.bullets < (0 : ℚ) then { g2 with bullets := 0 } else g2
    let tg := g2.nextFloat
    let g3 := { tg.2 with mileage := tg.2.mileage + (45 + tg.1 * 20) }
    let g4 := g3.clampResources
    if g4.mileage ≥ TrailLength then g4.handleFinalTurn i else g4

/-- `GameState.HandleHuntShoot`: resolve an interactive hunting attempt from
the measured reaction time; ends with clamp, return to the main menu, and
the win check. -/
def GameState.handleHuntShoot (g : GameState) (i : ℕ) (reactionTimeMs : Int) : GameState :=
  match g.players.get? i with
  | none => g
  | some _ =>
    let accuracy : ℚ :=
      if reactionTimeMs < 300 then 0
      else if reactionTimeMs < 600 then 1 + ((reactionTimeMs : ℚ) - 300) / 300
      else if reactionTimeMs < 1000 then 3 + ((reactionTimeMs : ℚ) - 600) / 250
      else if reactionTimeMs < 2000 then 6 + ((reactionTimeMs : ℚ) - 1000) / 500
      else 9
    let g1 :=
      if accuracy ≤ 2 then
        let fg := g.nextFloat
        { fg.2 with food := fg.2.food + (52 + fg.1 * 6) }
      else
        let fg := g.nextFloat
        if fg.1 * 100 < 13 * accuracy then fg.2
        else { fg.2 with food := fg.2.food + (48 - 2 * accuracy) }
    let g2 := { g1 with bullets := g1.bullets - (10 + 3 * accuracy) }
    let g2 := if g2.bullets < (0 : ℚ) then { g2 with bullets := 0 } else g2
    let tg := g2.nextFloat
    let g3 := { tg.2 with mileage := tg.2.mileage + (45 + tg.1 * 20) }
    let g4 := g3.clampResources
    let g5 := { g4 with turnPhase := TurnPhase.mainMenu }
    if g5.mileage ≥ TrailLength then g5.handleFinalTurn i else g5

/-- `GameState.HandleEatingResult`: wraps illness resolution. -/
def GameState.handleEatingResult (g : GameState) (i : ℕ) (eatingLevel : Int) : GameState :=
  g.handleIllness i eatingLevel

/-- `GameState.FinishTurn`: the deferred remainder of a turn (random event,
mountains, eating and illness, clamp, win check), run only after any rider
encounter has been resolved. -/
def GameState.finishTurn (g : GameState) (i : ℕ) (eatingLevel : Int) : GameState :=
  let g1 := if !g.gameOver && g.playerAlive i then g.handleRandomEvent i else g
  let g2 :=
    if !g1.gameOver && g1.playerAlive i && decide (g1.mileage > MountainThreshold) then
      g1.handleMountains i
    else g1
  let g3 := g2.handleEatingResult i eatingLevel
  let g4 := g3.clampResources
  if !g4.gameOver && decide (g4.mileage ≥ TrailLength) then g4.handleFinalTurn i else g4

/-- The starvation paragraph of `ContinueTravel`: 20 damage to every alive
member of the party, in member order. -/
def GameState.starvationDamage (g : GameState) (i : ℕ) : GameState :=
  match g.players.get? i with
  | none => g
  | some p =>
    (List.range p.party.length).foldl
      (fun acc j =>
        let aliveNow :=
          match acc.players.get? i with
          | some q => match q.party.get? j with
            | some m => m.alive
            | none => false
          | none => false
        if aliveNow then acc.damagePartyMember i j 20 else acc)
      g

/-- The trailing paragraph of `ContinueTravel`: finish the turn only while
the game is live and the player survived. -/
def GameState.maybeFinishTurn (g : GameState) (i : ℕ) (eatingLevel : Int) : GameState :=
  if !g.gameOver && g.playerAlive i then g.finishTurn i eatingLevel else g

/-- The rider paragraph of `ContinueTravel`: check for riders, suspend into
the riders phase for a human (recording the eating tier), auto-resolve for a
CPU, then fall into the finish-turn paragraph. -/
def GameState.ridersAndFinish (g : GameState) (i : ℕ) (eatingLevel : Int)
    (baseTravel : ℚ) : GameState :=
  if baseTravel > 1 && !g.gameOver && g.playerAlive i then
    let cg := g.checkRiders
    if cg.1 then
      if !(cg.2.playerIsCPU i) then
        { cg.2 with turnPhase := TurnPhase.riders, pendingEatingLevel := eatingLevel }
      else
        let tg := cg.2.cpuChooseTactic cg.2.pendingRiderHostile
        let g2 := tg.2.resolveRiderTactic i tg.1
        g2.maybeFinishTurn i eatingLevel
    else cg.2.maybeFinishTurn i eatingLevel
  else g.maybeFinishTurn i eatingLevel

/-- `GameState.ContinueTravel`: starvation check, eating-tier food
consumption, base travel, river crossing, riders, and the deferred finish.
Returns early (without any finish) when the riders phase suspends or when
starvation ends the player. -/
def GameState.continueTravel (g : GameState) (i : ℕ) : GameState :=
  let g0 := if g.food < (13 : ℚ) then g.starvationDamage i else g
  if !g0.playerAlive i then g0
  else
    let eatingLevel : Int :=
      if g0.playerIsCPU i then
        if g0.food > 200 then 3 else if g0.food > 100 then 2 else 1
      else 2
    let g1 := { g0 with food := g0.food - (8 + 5 * (eatingLevel : ℚ)) }
    let fg := g1.nextFloat
    let baseTravel := 80 + (fg.2.oxenCost - 220) / 5 + fg.1 * 15
    let g2 := { fg.2 with mileage := fg.2.mileage + baseTravel }
    let g3 := g2.handleRiverCrossing i
    g3.ridersAndFinish i eatingLevel baseTravel

/-- `GameState.ProcessTurn`: the top-level action dispatch.  A nil or dead
player is rejected without mutation; otherwise the phase resets to the main
menu, a human hunt with enough ammunition suspends into the hunting phase
after paying the ammunition cost, and every other action continues travel. -/
def GameState.processTurn (g : GameState) (i : ℕ) (action : String) : GameState :=
  match g.players.get? i with
  | none => g
  | some p =>
    if !p.alive then g
    else
      let g0 := { g with turnPhase := TurnPhase.mainMenu }
      if action = "hunt" then
        if g0.bullets ≥ (50 : ℚ) then
          if p.ptype.isCPU then g0.handleHunting i
          else
            let wg := g0.getShootingPrompt
            { wg.2 with turnPhase := TurnPhase.hunting, huntWord := wg.1,
                        bullets := wg.2.bullets - 50 }
        else g0.continueTravel i
      else g0.continueTravel i

/-- `GameState.HandleRiderTactic`: resolve the pending rider encounter, then
finish the remainder of the suspended turn using the recorded eating tier,
and return to the main menu. -/
def GameState.handleRiderTactic (g : GameState) (i : ℕ) (tactic : Int) : GameState :=
  match g.players.get? i with
  | none => g
  | some _ =>
    let g1 := g.resolveRiderTactic i tactic
    let g2 :=
      if !g1.gameOver && g1.playerAlive i then g1.finishTurn i g1.pendingEatingLevel
      else g1
    { g2 with turnPhase := TurnPhase.mainMenu }

/-- The alive human players, as indices into the player list (the Go
`GetHumanPlayers` pointer slice in list order). -/
def GameState.humanIdx (g : GameState) : List ℕ :=
  (List.range g.players.length).filter
    (fun j => match g.players.get? j with
      | some p => p.ptype.isHuman && p.alive
      | none => false)

/-- `GameState.NextTurn`: rotate the turn among alive human players; with
none the engine finishes, with one the index is pinned to them, otherwise
the next alive human after the current player takes over (first alive human
when the current player is not an alive human).  The Go code mutates the
turn counter and the week before rotating; the rotation reads only the
player list and the current index, so computing the three new fields and
writing them at once is behavior-identical. -/
def GameState.nextTurn (g : GameState) : GameState :=
  let humans := g.humanIdx
  if humans.length = 0 then { g with gameOver := true }
  else
    let tn := g.turnNumber + 1
    let wk := if tn % 4 = 0 then g.week + 1 else g.week
    let newIdx :=
      if humans.length = 1 then humans.headD 0
      else
        match humans.findIdx? (fun j => j == g.currentPlayerIdx) with
        | some k => humans.getD ((k + 1) % humans.length) 0
        | none => humans.headD 0
    { g with turnNumber := tn, week := wk, currentPlayerIdx := newIdx }

/-- The fixed initial party roster of `GameState.AddPlayer`. -/
def partyNames : List String := [ "You", "Wife", "Son", "Daughter", "Baby" ]

/-- `GameState.AddPlayer`: append a fresh five-member party player and return
its index (the Go pointer).  The Go wall-clock `generateID` is abstracted as
the `freshId` argument; the one server call site immediately overwrites the
id with the connection id. -/
def GameState.addPlayer (g : GameState) (name : String) (ptype : PlayerType)
    (freshId : String) : GameState × ℕ :=
  let party := partyNames.map
    (fun n => { name := n, alive := true, health := 100, injured := false : PartyMember })
  let player : Player :=
    { id := freshId, name := name, ptype := ptype, party := party,
      connected := true, shootingRank := 3, alive := true }
  ({ g with players := g.players ++ [player] }, g.players.length)

/-- Room mode (`RoomType`). -/
inductive RoomType where
  | continuous
  | scheduled
deriving DecidableEq, Repr

/-- Bool shim for the Go comparison `roomType == RoomTypeScheduled`. -/
def RoomType.isScheduled : RoomType → Bool
  | .scheduled => true
  | .continuous => false

/-- Bool shim for the Go comparison `roomType == RoomTypeContinuous`. -/
def RoomType.isContinuous : RoomType → Bool
  | .continuous => true
  | .scheduled => false

/-- Room lifecycle status (`GameStatus`). -/
inductive GameStatus where
  | waiting
  | playing
  | finished
deriving DecidableEq, Repr

/-- Bool shim for the Go comparison `status == StatusWaiting`. -/
def GameStatus.isWaiting : GameStatus → Bool
  | .waiting => true
  | _ => false

/-- Bool shim for the Go comparison `status == StatusPlaying`. -/
def GameStatus.isPlaying : GameStatus → Bool
  | .playing => true
  | _ => false

/-- Bool shim for the Go comparison `status == StatusFinished`. -/
def GameStatus.isFinished : GameStatus → Bool
  | .finished => true
  | _ => false

/-- A connection-scoped client handle (`Client`).  The Go `Player` pointer
into the room game is modelled as an index into `game.players` (`none` for a
nil pointer). -/
structure Client where
  id : String
  name : String
  playerIdx : Option ℕ
  sessionID : String
  roomID : String
deriving DecidableEq, Repr

instance : Inhabited Client :=
  ⟨{ id := "", name := "", playerIdx := none, sessionID := "", roomID := "" }⟩

/-- A game room (`GameRoom`).  The client map is an id-keyed association
list; the pending `time.Timer` is modelled by the expected player id it was
armed for plus the deadline (ℚ seconds); `createdAt` is ℚ seconds. -/
structure Room where
  id : String
  name : String
  roomType : RoomType
  status : GameStatus
  password : String
  ownerID : String
  maxPlayers : Int
  createdAt : ℚ
  game : GameState
  clients : List Client
  deadPlayers : List String
  turnTimer : Option String
  turnDeadline : ℚ
deriving DecidableEq, Repr

/-- One leaderboard record as passed to `Leaderboard.AddEntry` (sorting,
trimming and persistence of the leaderboard file are out of scope; the
wall-clock date string is dropped). -/
structure LBEntry where
  playerName : String
  won : Bool
  miles : ℚ
  turnCount : ℕ
  gameMode : String
deriving DecidableEq, Repr

/-- `Leaderboard.AddEntry`, modelled as an append of the record. -/
def leaderboardAdd (lb : List LBEntry) (e : LBEntry) : List LBEntry :=
  lb ++ [e]

/-- `initRoomResources`: the fixed starting loadout of a shared room. -/
def initRoomResources (room : Room) : Room :=
  { room with game := { room.game with
      oxenCost := 220, food := 100, bullets := 50, clothing := 20,
      miscSupplies := 10, cash := 700, gameOver := false, win := false,
      currentPlayerIdx := 0 } }

/-- Insertion into the id-keyed client map (`room.clients[c.ID] = c`). -/
def insertClient : List Client → Client → List Client
  | [], c => [c]
  | x :: xs, c => if x.id = c.id then c :: xs else x :: insertClient xs c

/-- Rebind the stored player pointer of the client with the given id. -/
def setClientPlayer (cs : List Client) (clientID : String) (pi : Option ℕ) : List Client :=
  cs.map (fun c => if c.id = clientID then { c with playerIdx := pi } else c)

/-- `Server.StartTurnTimer`: cancel any pending timer and arm a fresh one,
bound to the given player identity, due in 20 seconds. -/
def startTurnTimer (room : Room) (playerID : String) (now : ℚ) : Room :=
  { room with turnTimer := some playerID, turnDeadline := now + 20 }

/-- `Server.CancelTurnTimer`. -/
def cancelTurnTimer (room : Room) : Room :=
  { room with turnTimer := none, turnDeadline := 0 }

/-- The current-player-is-nil fixup at the tail of `Server.AddClient`. -/
def fixupCurrentIdx (room : Room) : Room :=
  if room.game.currentPlayerIdx ≥ room.game.players.length ∧ room.game.players.length > 0 then
    { room with game := { room.game with currentPlayerIdx := 0 } }
  else room

/-- `Server.AddClient` (room part; the room-directory lookup and the session
refresh, which do not touch the room, are handled by the caller).  The
client is stored; a scheduled room that already started accepts the
connection but joins no player; otherwise the first player whose connection
id or display name matches is rebound to the new connection id, and only
when none matches is a fresh human player appended (auto-starting a fresh
continuous room on its first join). -/
def addClient (room : Room) (c : Client) : Room :=
  let c := { c with roomID := room.id }
  let room0 := { room with clients := insertClient room.clients c }
  if room0.roomType.isScheduled && !room0.status.isWaiting then room0
  else
    let existing := (List.range room0.game.players.length).find?
      (fun j => match room0.game.players.get? j with
        | some p => p.id == c.id || p.name == c.name
        | none => false)
    match existing with
    | some j =>
      let g := match room0.game.players.get? j with
        | some p => { room0.game with players := room0.game.players.set j { p with id := c.id } }
        | none => room0.game
      let room1 := { room0 with game := g,
                                clients := setClientPlayer room0.clients c.id (some j) }
      fixupCurrentIdx room1
    | none =>
      let gi := room0.game.addPlayer c.name PlayerType.human c.id
      let room1 := { room0 with game := gi.1,
                                clients := setClientPlayer room0.clients c.id (some gi.2) }
      let room2 :=
        if room1.roomType.isContinuous && room1.game.turnNumber == 0 &&
           room1.clients.length == 1 then
          { (initRoomResources room1) with status := GameStatus.playing }
        else room1
      fixupCurrentIdx room2

/-- Shift stored player indices across a removal of `players[j]` (Go player
pointers are stable; the removed pointer dangles and is modelled as none). -/
def adjustIdx (j : ℕ) : Option ℕ → Option ℕ
  | some k => if k = j then none else if k > j then some (k - 1) else some k
  | none => none

/-- `Server.LogoutClient` (room part; the session invalidation, which does
not touch the room, is handled by the caller).  Removes the player and the
client, applies the dead-player bookkeeping, transfers ownership to the
first remaining client, and when the leaver held the turn resets the phase
and re-arms the timer for the new current player if alive. -/
def logoutClient (room : Room) (clientID : String) (now : ℚ) : Room :=
  match room.clients.find? (fun c => c.id == clientID) with
  | none => room
  | some c =>
    let wasCurrentPlayer :=
      match room.game.players.get? room.game.currentPlayerIdx with
      | some cp => cp.id == clientID
      | none => false
    let room1 :=
      match (List.range room.game.players.length).find?
        (fun j => match room.game.players.get? j with
          | some p => p.id == clientID
          | none => false) with
      | none => room
      | some j =>
        let p := room.game.players.getD j default
        let roomA :=
          if !p.alive && room.status.isPlaying then
            let roomB :=
              if room.maxPlayers > 0 then { room with maxPlayers := room.maxPlayers - 1 }
              else room
            if !roomB.roomType.isContinuous then
              { roomB with deadPlayers := roomB.deadPlayers ++ [c.name] }
            else roomB
          else room
        let g := { roomA.game with players := roomA.game.players.eraseIdx j }
        let g :=
          if g.currentPlayerIdx ≥ g.players.length ∧ g.players.length > 0 then
            { g with currentPlayerIdx := 0 }
          else g
        { roomA with
            game := g
            clients := roomA.clients.map
              (fun (cl : Client) => { cl with playerIdx := adjustIdx j cl.playerIdx }) }
    let room2 := { room1 with clients := room1.clients.filter (fun cl => cl.id != clientID) }
    let room3 :=
      if room2.ownerID == clientID && decide (room2.clients.length > 0) then
        { room2 with ownerID := (room2.clients.headD default).id }
      else room2
    if wasCurrentPlayer && room3.status.isPlaying && !room3.game.gameOver then
      let room4 := { room3 with game := { room3.game with turnPhase := TurnPhase.mainMenu } }
      match room4.game.players.get? room4.game.currentPlayerIdx with
      | some np => if np.alive then startTurnTimer room4 np.id now else room4
      | none => room4
    else room3

/-- `createLootSite`: snapshot the dead party resources as an abandoned
wagon (the Go wall-clock id suffix is abstracted away; `now` stamps the
creation time).  A client with a nil player creates nothing. -/
def createLootSite (g : GameState) (c : Client) (now : ℚ) : GameState :=
  match c.playerIdx with
  | none => g
  | some _ =>
    let site : LootSite :=
      { id := "loot-" ++ c.id, mileage := g.mileage, playerName := c.name,
        food := g.food, bullets := g.bullets, clothing := g.clothing,
        miscSupplies := g.miscSupplies, cash := g.cash, oxenCost := g.oxenCost,
        dateCreated := now, isLooted := false, lootedBy := "", lootedAt := 0 }
    { g with lootSites := g.lootSites ++ [site] }

/-- `Server.advanceTurnAndCheckFort`: advance the turn; when the new current
player exists, is alive, and the game is live, flag the fort every third
turn and arm the turn timer.  The Go bool return value is unused at the call
sites modelled here. -/
def advanceTurnAndCheckFort (room : Room) (now : ℚ) : Room :=
  let g := room.game.nextTurn
  let room1 := { room with game := g }
  match g.players.get? g.currentPlayerIdx with
  | none => room1
  | some np =>
    if !np.alive || g.gameOver then room1
    else
      let room2 :=
        if decide (g.turnNumber > 0) && decide (g.turnNumber % 3 = 0) then
          { room1 with game := { room1.game with fortAvailable := true } }
        else room1
      startTurnTimer room2 np.id now

/-- The leaderboard records written when a room finishes: one entry per
client holding a player. -/
def finishEntries (room : Room) : List LBEntry :=
  let modeLabel := if room.roomType.isScheduled then "party" else "continuous"
  room.clients.filterMap (fun cl =>
    if cl.playerIdx.isSome then
      some { playerName := cl.name, won := room.game.win, miles := room.game.mileage,
             turnCount := room.game.turnNumber, gameMode := modeLabel }
    else none)

/-- `Server.handleTurnTimeout`: the timer callback.  Under the room lock it
re-validates that the expected player is still the alive current player of a
live playing room — any mismatch is a silent no-op — and only then applies
the 999 dysentery damage, the continuous-mode loot drop, the phase reset,
and either the finish bookkeeping or the advance to the next player.  (The
post-unlock broadcast is out of scope.) -/
def handleTurnTimeout (lb : List LBEntry) (room : Room) (expectedPlayerID : String)
    (now : ℚ) : List LBEntry × Room :=
  match room.game.players.get? room.game.currentPlayerIdx with
  | none => (lb, room)
  | some current =>
    if current.id != expectedPlayerID || room.game.gameOver ||
       !room.status.isPlaying || !current.alive then
      (lb, room)
    else
      let g1 := room.game.damageRandomMember room.game.currentPlayerIdx 999
      let room1 := { room with game := g1 }
      let room2 :=
        if !(g1.playerAlive g1.currentPlayerIdx) && room1.roomType.isContinuous then
          match room1.clients.find? (fun cl =>
            match cl.playerIdx with
            | some k => match g1.players.get? k with
              | some p => p.id == current.id
              | none => false
            | none => false) with
          | some cl => { room1 with game := createLootSite room1.game cl now }
          | none => room1
        else room1
      let room3 := { room2 with game := { room2.game with turnPhase := TurnPhase.mainMenu } }
      if room3.game.gameOver then
        (lb ++ finishEntries room3,
         { room3 with status := GameStatus.finished, turnDeadline := 0 })
      else
        (lb, advanceTurnAndCheckFort room3 now)

/-- `Server.HandleAction` (room part): the `start`/`start_game` bootstrap
branches, the dead-player rejection, the engine `ProcessTurn` call, the
continuous-mode loot drops, and either the finish bookkeeping or — only
when the turn did not suspend into fort, hunting or riders — the turn
advance.  Result strings are not modelled. -/
def handleAction (lb : List LBEntry) (room : Room) (clientID : String) (action : String)
    (now : ℚ) : List LBEntry × Room :=
  if action = "start" ∨ action = "start_game" then
    let room1 := initRoomResources room
    let room2 := { room1 with
        game := { room1.game with turnNumber := 1, gameOver := false }
        status := GameStatus.playing }
    match room2.game.players.get? room2.game.currentPlayerIdx with
    | some cp => (lb, startTurnTimer room2 cp.id now)
    | none => (lb, room2)
  else
    match room.clients.find? (fun c => c.id == clientID) with
    | none => (lb, room)
    | some c =>
      match c.playerIdx with
      | none => (lb, room)
      | some pidx =>
        if !(room.game.playerAlive pidx) then (lb, room)
        else
          let g := room.game.processTurn pidx action
          let room1 := { room with game := g }
          let room2 :=
            if !(g.playerAlive pidx) && room1.roomType.isContinuous then
              { room1 with game := createLootSite room1.game c now }
            else room1
          if room2.game.gameOver then
            let lb1 := lb ++ finishEntries room2
            let room3 :=
              if room2.roomType.isContinuous then
                room2.clients.foldl (fun (acc : Room) cl =>
                  match cl.playerIdx with
                  | some k =>
                    if !(acc.game.playerAlive k) &&
                       !(acc.game.lootSites.any
                          (fun site => site.playerName == cl.name && !site.isLooted)) then
                      { acc with game := createLootSite acc.game cl now }
                    else acc
                  | none => acc) room2
              else room2
            (lb1, cancelTurnTimer { room3 with status := GameStatus.finished })
          else if !room2.game.turnPhase.isFort &&
                  !room2.game.turnPhase.isHunting &&
                  !room2.game.turnPhase.isRiders then
            (lb, advanceTurnAndCheckFort room2 now)
          else
            (lb, room2)

/-- `Server.HandleHuntShoot` (room part): current-player and hunting-phase
guards, the engine shot resolution, and the finish-or-advance tail. -/
def serverHandleHuntShoot (lb : List LBEntry) (room : Room) (clientID : String)
    (reactionTimeMs : Int) (now : ℚ) : List LBEntry × Room :=
  match room.clients.find? (fun c => c.id == clientID) with
  | none => (lb, room)
  | some c =>
    let currentOk :=
      match room.game.players.get? room.game.currentPlayerIdx with
      | some cp => cp.id == c.id
      | none => false
    if !currentOk then (lb, room)
    else if !room.game.turnPhase.isHunting then (lb, room)
    else
      match c.playerIdx with
      | none => (lb, room)
      | some pidx =>
        let g := room.game.handleHuntShoot pidx reactionTimeMs
        let room1 := { room with game := g }
        if g.gameOver then
          (lb ++ finishEntries room1,
           cancelTurnTimer { room1 with status := GameStatus.finished })
        else
          (lb, advanceTurnAndCheckFort room1 now)

/-- The tactic-range coercion of `Server.HandleRiderTactic`: anything
outside 1 to 4 silently becomes 3 (proceed). -/
def coerceTactic (tactic : Int) : Int :=
  if tactic < 1 ∨ tactic > 4 then 3 else tactic

/-- `Server.HandleRiderTactic` (room part): current-player and riders-phase
guards, the silent tactic-range coercion, the engine resolution together
with the deferred turn remainder, and the finish-or-advance tail. -/
def serverHandleRiderTactic (lb : List LBEntry) (room : Room) (clientID : String)
    (tactic : Int) (now : ℚ) : List LBEntry × Room :=
  match room.clients.find? (fun c => c.id == clientID) with
  | none => (lb, room)
  | some c =>
    let currentOk :=
      match room.game.players.get? room.game.currentPlayerIdx with
      | some cp => cp.id == c.id
      | none => false
    if !currentOk then (lb, room)
    else if !room.game.turnPhase.isRiders then (lb, room)
    else
      match c.playerIdx with
      | none => (lb, room)
      | some pidx =>
        let g := room.game.handleRiderTactic pidx (coerceTactic tactic)
        let room1 := { room with game := g }
        if g.gameOver then
          (lb ++ finishEntries room1,
           cancelTurnTimer { room1 with status := GameStatus.finished })
        else
          (lb, advanceTurnAndCheckFort room1 now)

/-- The engine mutation performed by `Server.HandleFortEnter` once its
guards pass: enter the fort phase, pay the 45-mile backtrack, clamp. -/
def GameState.fortEnter (g : GameState) : GameState :=
  GameState.clampResources { g with turnPhase := TurnPhase.fort, mileage := g.mileage - 45 }

/-- `Server.HandleFortEnter` (room part): current-player and
fort-availability guards, then the engine mutation and the timer pause. -/
def serverHandleFortEnter (room : Room) (clientID : String) : Room :=
  match room.clients.find? (fun c => c.id == clientID) with
  | none => room
  | some c =>
    let currentOk :=
      match room.game.players.get? room.game.currentPlayerIdx with
      | some cp => cp.id == c.id
      | none => false
    if !currentOk then room
    else if !room.game.fortAvailable then room
    else cancelTurnTimer { room with game := room.game.fortEnter }

/-- Result tag of `Server.HandleLootClaim`, carrying the data the Go message
format string interpolates. -/
inductive LootMsg where
  | notMember
  | notYourTurn
  | notContinuous
  | tooFar
  | alreadyLooted (lootedBy : String)
  | looted (playerName : String) (cash food bullets clothing misc : ℚ)
  | notFound
deriving DecidableEq, Repr

/-- `Server.HandleLootClaim` (room part): current-player and continuous-mode
guards; the first site with the requested id is checked for range, then for
the claimed flag; an unclaimed site in range transfers its full snapshot to
the shared resources, flips the claimed flag, and records the claimant. -/
def handleLootClaim (room : Room) (clientID : String) (lootSiteID : String)
    (now : ℚ) : LootMsg × Room :=
  match room.clients.find? (fun c => c.id == clientID) with
  | none => (.notMember, room)
  | some c =>
    let currentOk :=
      match room.game.players.get? room.game.currentPlayerIdx with
      | some cp => cp.id == c.id
      | none => false
    if !currentOk then (.notYourTurn, room)
    else if !room.roomType.isContinuous then (.notContinuous, room)
    else
      match room.game.lootSites.findIdx? (fun s => s.id == lootSiteID) with
      | none => (.notFound, room)
      | some si =>
        let site := room.game.lootSites.getD si default
        if room.game.mileage < site.mileage - 50 ∨ room.game.mileage > site.mileage + 50 then
          (.tooFar, room)
        else if site.isLooted then
          (.alreadyLooted site.lootedBy, room)
        else
          let g1 := { room.game with
              food := room.game.food + site.food
              bullets := room.game.bullets + site.bullets
              clothing := room.game.clothing + site.clothing
              miscSupplies := room.game.miscSupplies + site.miscSupplies
              cash := room.game.cash + site.cash
              oxenCost := room.game.oxenCost + site.oxenCost }
          let site2 := { site with isLooted := true, lootedBy := c.name, lootedAt := now }
          let g2 := { g1 with lootSites := g1.lootSites.set si site2 }
          (.looted site.playerName site.cash site.food site.bullets site.clothing
             site.miscSupplies,
           { room with game := g2.clampResources })

/-- The keep condition of one sweep step of `Server.CleanupStaleRooms`: the
permanent continuous room is always kept; otherwise a room survives only if
it has clients, is not a finished room older than 10 minutes, and is not a
waiting room older than 24 hours. -/
def staleKeep (now : ℚ) (id : String) (room : Room) : Bool :=
  id == "continuous" ||
  (!room.clients.isEmpty &&
   !(room.status.isFinished && decide (now - room.createdAt > 600)) &&
   !(room.status.isWaiting && decide (now - room.createdAt > 86400)))

/-- `Server.CleanupStaleRooms`: delete, under the room-directory lock, every
room failing the keep condition. -/
def cleanupStaleRooms (now : ℚ) (rooms : List (String × Room)) : List (String × Room) :=
  rooms.filter (fun e => staleKeep now e.1 e.2)

/-!
## Statement-side predicates and shared concrete states
-/

/-- All resource fields, mileage, and the oxen scalar are nonnegative. -/
def ResNonneg (g : GameState) : Prop :=
  0 ≤ g.food ∧ 0 ≤ g.bullets ∧ 0 ≤ g.clothing ∧ 0 ≤ g.miscSupplies ∧
  0 ≤ g.cash ∧ 0 ≤ g.mileage ∧ 0 ≤ g.oxenCost

instance (g : GameState) : Decidable (ResNonneg g) := by
  unfold ResNonneg; infer_instance

/-- All resource fields except food are nonnegative. -/
def ResNonnegNoFood (g : GameState) : Prop :=
  0 ≤ g.bullets ∧ 0 ≤ g.clothing ∧ 0 ≤ g.miscSupplies ∧
  0 ≤ g.cash ∧ 0 ≤ g.mileage ∧ 0 ≤ g.oxenCost

instance (g : GameState) : Decidable (ResNonnegNoFood g) := by
  unfold ResNonnegNoFood; infer_instance

/-- Resources, mileage and the oxen scalar are untouched (the damage and
bookkeeping helpers). -/
def RP (g h : GameState) : Prop :=
  h.food = g.food ∧ h.bullets = g.bullets ∧ h.clothing = g.clothing ∧
  h.miscSupplies = g.miscSupplies ∧ h.cash = g.cash ∧
  h.mileage = g.mileage ∧ h.oxenCost = g.oxenCost

/-- The resource fields the clamp protects on every path, including the
interactive early returns: ammunition, clothing, supplies, cash and the
oxen scalar (food and mileage are the transit fields of a turn). -/
def ResNonnegCore (g : GameState) : Prop :=
  0 ≤ g.bullets ∧ 0 ≤ g.clothing ∧ 0 ≤ g.miscSupplies ∧
  0 ≤ g.cash ∧ 0 ≤ g.oxenCost

instance (g : GameState) : Decidable (ResNonnegCore g) := by
  unfold ResNonnegCore; infer_instance

/-- The Turn Engine operations of the resource-invariant claim. -/
inductive EngineOp where
  | action (a : String)
  | huntShot (ms : Int)
  | riderTactic (t : Int)
  | fortBuy (item : String) (qty : Int)
  | fortSell (item : String) (qty : Int)
  | fortEnter
  | fortLeave
deriving DecidableEq, Repr

/-- Dispatch of one Turn Engine operation by player index. -/
def applyOp (g : GameState) (i : ℕ) : EngineOp → GameState
  | .action a => g.processTurn i a
  | .huntShot ms => g.handleHuntShoot i ms
  | .riderTactic t => g.handleRiderTactic i t
  | .fortBuy it q => (g.handleFortBuy it q).2
  | .fortSell it q => (g.handleFortSell it q).2
  | .fortEnter => g.fortEnter
  | .fortLeave => g.handleFortLeave

/-- A neutral game state used as the base of the concrete scenarios. -/
def baseGame : GameState :=
  { players := []
    currentPlayerIdx := 0
    turnNumber := 1
    week := 1
    day := 1
    mileage := 0
    food := 0
    bullets := 0
    clothing := 0
    miscSupplies := 0
    cash := 0
    oxenCost := 0
    turnPhase := .mainMenu
    gameOver := false
    win := false
    finalDate := ""
    rng := ⟨[], []⟩
    pendingRiderHostile := false
    pendingEatingLevel := 0
    pendingRiderCount := 0
    huntWord := ""
    fortAvailable := false
    lootSites := [] }

/-- The fresh five-member party as `AddPlayer` builds it. -/
def freshParty : List PartyMember := partyNames.map (fun n => ⟨n, true, 100, false⟩)

/-- A connected human player with a fresh party. -/
def humanPl (id name : String) : Player :=
  { id := id
    name := name
    ptype := .human
    party := freshParty
    connected := true
    shootingRank := 3
    alive := true }

/-- A human player whose leader has fallen: the player is out of the game. -/
def deadLeaderPl (id name : String) : Player :=
  { humanPl id name with
      alive := false
      party := [⟨"You", false, 0, false⟩] ++ freshParty.drop 1 }

/-- Concrete state for the rider-suspension counterexample: a healthy solo
human with food 15, about to eat 18 units, with a rider encounter queued by
the zero draws. -/
def cx1 : GameState :=
  { baseGame with
      players := [humanPl "A" "alice"]
      food := 15
      bullets := 60
      clothing := 5
      miscSupplies := 5
      cash := 10
      oxenCost := 220
      rng := ⟨[0, 0, 0], [0]⟩ }

/-- Concrete state for the insufficient-ammunition hunt: only 10 bullets. -/
def cx5 : GameState :=
  { cx1 with food := 50, bullets := 10 }

/-- The shared scheduled-room engine of the two-player hunt scenario,
parametrised by the two float draws the hunt consumes. -/
def gC6 (f1 f2 : ℚ) : GameState :=
  { baseGame with
      players := [humanPl "A" "alice", humanPl "B" "bob"]
      food := 100
      bullets := 50
      clothing := 20
      miscSupplies := 10
      cash := 700
      oxenCost := 220
      rng := ⟨[f1, f2], [0]⟩ }

/-- Client handle of player A. -/
def clA : Client :=
  { id := "A", name := "alice", playerIdx := some 0, sessionID := "", roomID := "r6" }

/-- Client handle of player B. -/
def clB : Client :=
  { id := "B", name := "bob", playerIdx := some 1, sessionID := "", roomID := "r6" }

/-- The two-player scheduled room of the hunt scenario. -/
def roomC6 (f1 f2 : ℚ) : Room :=
  { id := "r6"
    name := "six"
    roomType := .scheduled
    status := .playing
    password := ""
    ownerID := "A"
    maxPlayers := 4
    createdAt := 0
    game := gC6 f1 f2
    clients := [clA, clB]
    deadPlayers := []
    turnTimer := none
    turnDeadline := 0 }

/-- A playing scheduled room whose only other player is dead: player B (the
current player) is about to log out. -/
def roomC2 : Room :=
  { roomC6 0 0 with
      id := "r2"
      game := { baseGame with
                  players := [deadLeaderPl "A" "al", humanPl "B" "bo"]
                  currentPlayerIdx := 1
                  food := 50
                  bullets := 50
                  oxenCost := 220 } }

/-- A waiting scheduled room with a name collision: the joining connection id
matches player 1 while the joining display name matches player 0. -/
def roomC8 : Room :=
  { roomC6 0 0 with
      id := "r8"
      status := .waiting
      clients := []
      game := { baseGame with players := [humanPl "x" "bob", humanPl "conn7" "carol"] } }

/-- The joining client of the name-collision scenario. -/
def cC8 : Client :=
  { id := "conn7", name := "bob", playerIdx := none, sessionID := "", roomID := "" }

/-- A finished scheduled room, ten thousand seconds old, still holding a
connected member. -/
def roomC7 : Room :=
  { roomC6 0 0 with id := "r7", status := .finished, game := baseGame }

/-- A riders-phase room whose current player is dead (spectating), used to
show the out-of-range tactic is resolved rather than rejected. -/
def roomC10 : Room :=
  { roomC6 0 0 with
      id := "ra"
      game := { baseGame with
                  players := [deadLeaderPl "A" "al", humanPl "B" "bo"]
                  currentPlayerIdx := 0
                  turnPhase := .riders
                  pendingRiderHostile := false
                  food := 20
                  bullets := 30
                  oxenCost := 220 } }

/-- Solo human at mileage 4490 with exactly the hunting ammunition. -/
def gC3 : GameState :=
  { cx1 with
      food := 100
      bullets := 50
      mileage := 4490
      rng := ⟨[0, 0], [0]⟩ }

/-- The state fields that every non-suspending travel step preserves: the
turn phase, the win flag, the recorded eating tier, and the human/CPU kind
of every player. -/
def PWK (g h : GameState) : Prop :=
  h.turnPhase = g.turnPhase ∧ h.win = g.win ∧
  h.pendingEatingLevel = g.pendingEatingLevel ∧
  ∀ j, h.playerIsCPU j = g.playerIsCPU j

/-!
## Shim and stream normal-form lemmas
-/

theorem isPlaying_iff (s : GameStatus) : s.isPlaying = true ↔ s = GameStatus.playing := by
  cases s <;> simp [GameStatus.isPlaying]

theorem isWaiting_iff (s : GameStatus) : s.isWaiting = true ↔ s = GameStatus.waiting := by
  cases s <;> simp [GameStatus.isWaiting]

theorem isFinished_iff (s : GameStatus) : s.isFinished = true ↔ s = GameStatus.finished := by
  cases s <;> simp [GameStatus.isFinished]

theorem isScheduled_iff (t : RoomType) : t.isScheduled = true ↔ t = RoomType.scheduled := by
  cases t <;> simp [RoomType.isScheduled]

theorem isContinuous_iff (t : RoomType) : t.isContinuous = true ↔ t = RoomType.continuous := by
  cases t <;> simp [RoomType.isContinuous]

theorem isCPU_iff (t : PlayerType) : t.isCPU = true ↔ t = PlayerType.cpu := by
  cases t <;> simp [PlayerType.isCPU]

theorem isHuman_iff (t : PlayerType) : t.isHuman = true ↔ t = PlayerType.human := by
  cases t <;> simp [PlayerType.isHuman]

theorem isFort_iff (t : TurnPhase) : t.isFort = true ↔ t = TurnPhase.fort := by
  cases t <;> simp [TurnPhase.isFort]

theorem isHunting_iff (t : TurnPhase) : t.isHunting = true ↔ t = TurnPhase.hunting := by
  cases t <;> simp [TurnPhase.isHunting]

theorem isRiders_iff (t : TurnPhase) : t.isRiders = true ↔ t = TurnPhase.riders := by
  cases t <;> simp [TurnPhase.isRiders]

theorem Rng.nextFloat_eq (r : Rng) :
    r.nextFloat = (r.floats.headD 0, ⟨r.floats.tail, r.ints⟩) := by
  rcases r with ⟨fs, is⟩
  cases fs <;> rfl

theorem GameState.nextFloatState_eq (g : GameState) :
    g.nextFloat = (g.rng.floats.headD 0, { g with rng := ⟨g.rng.floats.tail, g.rng.ints⟩ }) := by
  unfold GameState.nextFloat
  rw [Rng.nextFloat_eq]

/-!
## C7: the stale-room sweep
-/

/-- The sweep keep condition, spelled out over the status enum. -/
theorem staleKeep_iff (now : ℚ) (id : String) (r : Room) :
    staleKeep now id r = true ↔
      (id = "continuous" ∨
        (r.clients ≠ [] ∧
         ¬(r.status = GameStatus.finished ∧ now - r.createdAt > 600) ∧
         ¬(r.status = GameStatus.waiting ∧ now - r.createdAt > 86400))) := by
  unfold staleKeep
  cases hs : r.status <;>
    simp [GameStatus.isFinished, GameStatus.isWaiting, decide_eq_true_eq,
      beq_iff_eq, List.isEmpty_iff]

/-- C7 (amended): the stale-room sweep keeps exactly the permanent
continuous room and any room that still holds clients and is neither a
finished room older than ten minutes nor a waiting room older than
twenty-four hours.  In particular an empty non-continuous room is always
deleted, but — contrary to the claim as stated — a finished or
stale-waiting room is deleted even while it holds connected members; only
a playing (or young enough) room is protected by its members. -/
theorem cleanup_keeps_iff (now : ℚ) (rooms : List (String × Room)) (id : String) (r : Room) :
    (id, r) ∈ cleanupStaleRooms now rooms ↔
      ((id, r) ∈ rooms ∧
        (id = "continuous" ∨
          (r.clients ≠ [] ∧
           ¬(r.status = GameStatus.finished ∧ now - r.createdAt > 600) ∧
           ¬(r.status = GameStatus.waiting ∧ now - r.createdAt > 86400)))) := by
  unfold cleanupStaleRooms
  rw [List.mem_filter, staleKeep_iff]

/-- C7 counterexample: a finished room that is ten thousand seconds old and
still holds a connected member is deleted by the sweep, refuting the claim
that a room holding members is never deleted regardless of status or age. -/
theorem cleanup_deletes_occupied :
    roomC7.clients ≠ [] ∧ cleanupStaleRooms 10000 [("r7", roomC7)] = [] := by
  constructor
  · decide
  · simp [cleanupStaleRooms, staleKeep, roomC7, roomC6, clA, clB, GameStatus.isFinished]
    norm_num

/-!
## C10: out-of-range rider tactics
-/

/-- C10: a resolveRiders request with a tactic outside 1 to 4 is not
rejected: it behaves exactly as tactic 3 (proceed) — the two calls return
identical results on every room — and it does mutate state: on the
concrete riders-phase room the phase moves back to the main menu. -/
theorem riderTactic_oob_coerced :
    (∀ (lb : List LBEntry) (room : Room) (clientID : String) (t : Int) (now : ℚ),
       t < 1 ∨ t > 4 →
       serverHandleRiderTactic lb room clientID t now =
         serverHandleRiderTactic lb room clientID 3 now) ∧
    roomC10.game.turnPhase = TurnPhase.riders ∧
    (serverHandleRiderTactic [] roomC10 "A" 7 0).2.game.turnPhase = TurnPhase.mainMenu := by
  refine ⟨?_, rfl, ?_⟩
  · intro lb room cid t now ht
    have h1 : coerceTactic t = 3 := by unfold coerceTactic; exact if_pos ht
    have h2 : coerceTactic 3 = 3 := by unfold coerceTactic; norm_num
    simp only [serverHandleRiderTactic, h1, h2]
  · simp [serverHandleRiderTactic, roomC10, roomC6, clA, clB, coerceTactic, baseGame,
      deadLeaderPl, humanPl, freshParty, partyNames, GameState.handleRiderTactic,
      GameState.resolveRiderTactic, GameState.riderAftermath, GameState.clampResources,
      GameState.playerAlive, GameState.finishTurn, GameState.maybeFinishTurn,
      advanceTurnAndCheckFort, GameState.nextTurn, GameState.humanIdx,
      PlayerType.isHuman, TurnPhase.isRiders, startTurnTimer, List.range,
      List.range.loop]
    norm_num

/-- C10 witness: tactic -5 is out of range and resolves exactly as
tactic 3 on the concrete riders-phase room. -/
theorem riderTactic_oob_witness :
    ((-5 : Int) < 1 ∨ (-5 : Int) > 4) ∧
    serverHandleRiderTactic [] roomC10 "A" (-5) 0 =
      serverHandleRiderTactic [] roomC10 "A" 3 0 :=
  ⟨Or.inl (by norm_num),
   riderTactic_oob_coerced.1 [] roomC10 "A" (-5) 0 (Or.inl (by norm_num))⟩

/-!
## C4: stale turn timers are silent no-ops
-/

/-- C4: when the timer callback fires and the stale guard trips — there is
no current player, or the current player does not carry the expected
identity, or the engine is finished, or the room is no longer playing, or
the expected player is no longer alive — the callback returns the room and
the leaderboard exactly as they were: no resource field and no game state
is mutated. -/
theorem turnTimeout_stale_noop (lb : List LBEntry) (room : Room)
    (expectedPlayerID : String) (now : ℚ)
    (h : ∀ cp, room.game.players.get? room.game.currentPlayerIdx = some cp →
         cp.id ≠ expectedPlayerID ∨ room.game.gameOver = true ∨
         room.status ≠ GameStatus.playing ∨ cp.alive = false) :
    handleTurnTimeout lb room expectedPlayerID now = (lb, room) := by
  unfold handleTurnTimeout
  split
  · rfl
  · next cp hcp =>
    have hd := h cp hcp
    have hg : (cp.id != expectedPlayerID || room.game.gameOver ||
               !room.status.isPlaying || !cp.alive) = true := by
      rcases hd with h1 | h1 | h1 | h1
      · simp [bne_iff_ne, h1]
      · simp [h1]
      · have hf : room.status.isPlaying = false := by
          rw [Bool.eq_false_iff]
          intro hT
          exact h1 ((isPlaying_iff _).1 hT)
        simp [hf]
      · simp [h1]
    rw [if_pos hg]

/-- C4 witness: a timer armed for an identity that is not the current
player fires as a no-op on the concrete two-player room. -/
theorem turnTimeout_stale_noop_witness :
    handleTurnTimeout [] (roomC6 0 0) "ZZZ" 0 = ([], roomC6 0 0) := by
  apply turnTimeout_stale_noop
  intro cp hcp
  simp [roomC6, gC6, baseGame, humanPl, freshParty, partyNames] at hcp
  subst hcp
  left
  decide

/-!
## C9: claiming an already-looted site
-/

/-- The already-looted loot site of the C9 witness scenario. -/
def lootedSite : LootSite :=
  { id := "loot-old", mileage := 100, playerName := "pioneer",
    food := 5, bullets := 5, clothing := 5, miscSupplies := 5, cash := 5, oxenCost := 5,
    dateCreated := 0, isLooted := true, lootedBy := "earlier", lootedAt := 0 }

/-- A continuous room in claiming range of an already-looted site. -/
def roomC9 : Room :=
  { roomC6 0 0 with
      id := "rc"
      roomType := .continuous
      game := { gC6 0 0 with mileage := 100, lootSites := [lootedSite] } }

/-- C9: when the claimant is the current player of a continuous room and in
range of the requested site, but the site (the first one carrying the
requested id) already has its looted flag set, the claim returns the
already-scavenged message naming the prior claimant and leaves the room —
claimant resources and the loot record included — completely unchanged; a
site therefore transfers its snapshot at most once. -/
theorem lootClaim_already_scavenged (room : Room) (clientID lootSiteID : String)
    (now : ℚ) (c : Client) (cp : Player) (si : ℕ) (site : LootSite)
    (hc : room.clients.find? (fun cl => cl.id == clientID) = some c)
    (hcp : room.game.players.get? room.game.currentPlayerIdx = some cp)
    (hid : cp.id = c.id)
    (hmode : room.roomType = RoomType.continuous)
    (hfind : room.game.lootSites.findIdx? (fun s => s.id == lootSiteID) = some si)
    (hget : room.game.lootSites.get? si = some site)
    (hlooted : site.isLooted = true)
    (hnear : ¬(room.game.mileage < site.mileage - 50 ∨
               room.game.mileage > site.mileage + 50)) :
    handleLootClaim room clientID lootSiteID now = (.alreadyLooted site.lootedBy, room) := by
  have hget2 : room.game.lootSites[si]? = some site := by
    rw [← List.get?_eq_getElem?]
    exact hget
  have hgetD : room.game.lootSites.getD si default = site := by
    simp [List.getD, hget2]
  unfold handleLootClaim
  rw [hc]
  simp only [hcp, hfind, hmode, hgetD, hid]
  simp only [RoomType.isContinuous, beq_self_eq_true, Bool.not_true, Bool.false_eq_true,
    if_false, Bool.not_false, if_true, ite_true, ite_false]
  rw [if_neg hnear, if_pos hlooted]

/-- C9 witness: the concrete continuous room with one already-looted site
in range rejects the claim with the already-scavenged message and is
unchanged. -/
theorem lootClaim_already_scavenged_witness :
    handleLootClaim roomC9 "A" "loot-old" 0 = (.alreadyLooted "earlier", roomC9) := by
  have h := lootClaim_already_scavenged roomC9 "A" "loot-old" 0 clA (humanPl "A" "alice")
    0 lootedSite
    (by decide) (by decide) rfl rfl (by decide) (by decide) rfl
    (by norm_num [roomC9, gC6, baseGame, lootedSite])
  simpa [lootedSite] using h

/-!
## C5: insufficient-resource requests
-/

/-- Statement-side helper: the stock the sell branch of `HandleFortSell`
checks for the given item key. -/
def stockOf (g : GameState) : String → ℚ
  | "food" => g.food
  | "bullets" => g.bullets
  | "clothing" => g.clothing
  | "misc" => g.miscSupplies
  | _ => 0

/-- C5 (amended): a fort buy without enough cash and a fort sell without
enough stock are rejected with a message carrying the shortfall amounts and
leave the state completely unchanged.  The hunt action with insufficient
ammunition, however, is not a rejection: after printing its complaint it
behaves exactly like a continue action, consuming food and advancing
mileage. -/
theorem insufficient_resource_checks :
    (∀ (g : GameState) (item : String) (qty : Int) (fi : FortItem),
       g.turnPhase = TurnPhase.fort → 0 < qty → getFortPrices item = some fi →
       fi.price * (qty : ℚ) > g.cash →
       g.handleFortBuy item qty = (.notEnoughCash (fi.price * (qty : ℚ)) g.cash, g)) ∧
    (∀ (g : GameState) (item : String) (qty : Int) (fi : FortItem),
       g.turnPhase = TurnPhase.fort → 0 < qty → getFortPrices item = some fi →
       stockOf g item < fi.qty * (qty : ℚ) →
       g.handleFortSell item qty =
         (.notEnoughStock item (stockOf g item) (fi.qty * (qty : ℚ)), g)) ∧
    (∀ (g : GameState) (i : ℕ) (p : Player),
       g.players.get? i = some p → p.alive = true → g.bullets < 50 →
       g.processTurn i "hunt" = g.processTurn i "continue") := by
  refine ⟨?_, ?_, ?_⟩
  · intro g item qty fi hphase hq hfi hcost
    unfold GameState.handleFortBuy
    rw [hphase]
    simp only [TurnPhase.isFort, Bool.not_true, Bool.false_eq_true, if_false, ite_false]
    rw [if_neg (by omega), hfi]
    dsimp only
    rw [if_pos hcost]
  · intro g item qty fi hphase hq hfi hstock
    have hitems : item = "food" ∨ item = "bullets" ∨ item = "clothing" ∨ item = "misc" := by
      by_cases h1 : item = "food"
      · exact Or.inl h1
      by_cases h2 : item = "bullets"
      · exact Or.inr (Or.inl h2)
      by_cases h3 : item = "clothing"
      · exact Or.inr (Or.inr (Or.inl h3))
      by_cases h4 : item = "misc"
      · exact Or.inr (Or.inr (Or.inr h4))
      · exfalso
        simp [getFortPrices, h1, h2, h3, h4] at hfi
    rcases hitems with rfl | rfl | rfl | rfl <;>
      (simp [getFortPrices] at hfi
       subst hfi
       simp only [GameState.handleFortSell, hphase, TurnPhase.isFort, Bool.not_true,
         Bool.false_eq_true, if_false, ite_false]
       rw [if_neg (by omega)]
       simp [getFortPrices, stockOf] at hstock ⊢
       simp [hstock])
  · intro g i p hp halive hb
    unfold GameState.processTurn
    rw [hp]
    simp only [halive, Bool.not_true, Bool.false_eq_true, if_false, ite_false]
    simp only [String.reduceEq, if_true, ite_true, if_false, ite_false, reduceIte]
    rw [if_neg (by exact not_le.2 hb)]

/-- A fort-phase variant of the concrete solo state, with 10 dollars cash
and 60 bullets. -/
def gFort : GameState := { cx1 with turnPhase := .fort }

/-- C5 witness: buying five food packs with 10 dollars is rejected stating
the 50-dollar cost against the 10 on hand; selling two ammo boxes with 60
bullets is rejected stating the 100-round requirement; and the hunt action
with 10 bullets takes the continue path. -/
theorem insufficient_resource_checks_witness :
    gFort.handleFortBuy "food" 5 = (.notEnoughCash 50 10, gFort) ∧
    gFort.handleFortSell "bullets" 2 = (.notEnoughStock "bullets" 60 100, gFort) ∧
    cx5.processTurn 0 "hunt" = cx5.processTurn 0 "continue" := by
  refine ⟨?_, ?_, ?_⟩
  · have h := insufficient_resource_checks.1 gFort "food" 5
      { price := 10, qty := 25, label := "Food Pack (25 lbs)" }
      rfl (by norm_num) rfl (by norm_num [gFort, cx1, baseGame])
    norm_num [gFort, cx1, baseGame] at h ⊢
    exact h
  · have h := insufficient_resource_checks.2.1 gFort "bullets" 2
      { price := 5, qty := 50, label := "Ammo Box (50 rounds)" }
      rfl (by norm_num) rfl (by norm_num [stockOf, gFort, cx1, baseGame])
    norm_num [stockOf, gFort, cx1, baseGame] at h ⊢
    exact h
  · exact insufficient_resource_checks.2.2 cx5 0 (humanPl "A" "alice")
      (by decide) rfl (by norm_num [cx5, cx1, baseGame])

/-!
## C2: the turn-holder invariant
-/

/-- Every index in `humanIdx` names an alive human player. -/
theorem humanIdx_mem (g : GameState) (j : ℕ) (hj : j ∈ g.humanIdx) :
    ∃ p, g.players.get? j = some p ∧ p.ptype = PlayerType.human ∧ p.alive = true := by
  unfold GameState.humanIdx at hj
  rw [List.mem_filter] at hj
  obtain ⟨hr, hp⟩ := hj
  cases hq : g.players.get? j with
  | none => rw [hq] at hp; simp at hp
  | some p =>
    rw [hq] at hp
    simp only [Bool.and_eq_true, isHuman_iff] at hp
    exact ⟨p, rfl, hp.1, hp.2⟩

/-- C2 (amended): after every turn advancement (`NextTurn`) the
current-player index refers to a human player whose alive flag is true, or
the engine is marked finished.  Logout and kick, however, only re-clamp the
index into range and do not re-establish this invariant: removing the
current player can leave the index on a dead human with the engine not
finished while the room stays `playing` (see the counterexample). -/
theorem nextTurn_current_alive_human (g : GameState) :
    (g.nextTurn).gameOver = true ∨
    ∃ p, (g.nextTurn).players.get? (g.nextTurn).currentPlayerIdx = some p ∧
         p.ptype = PlayerType.human ∧ p.alive = true := by
  unfold GameState.nextTurn
  by_cases h0 : g.humanIdx.length = 0
  · rw [if_pos h0]
    left
    rfl
  · rw [if_neg h0]
    right
    dsimp only
    have hlp : 0 < g.humanIdx.length := Nat.pos_of_ne_zero h0
    have hne : g.humanIdx ≠ [] := List.ne_nil_of_length_pos hlp
    have hheadmem : g.humanIdx.headD 0 ∈ g.humanIdx := by
      obtain ⟨a, tl, hcons⟩ := List.exists_cons_of_ne_nil hne
      rw [hcons]
      exact List.mem_cons_self a tl
    by_cases h1 : g.humanIdx.length = 1
    · rw [if_pos h1]
      exact humanIdx_mem g _ hheadmem
    · rw [if_neg h1]
      cases hf : g.humanIdx.findIdx? (fun j => j == g.currentPlayerIdx) with
      | some k =>
        have hlt : (k + 1) % g.humanIdx.length < g.humanIdx.length := Nat.mod_lt _ hlp
        have hgd : g.humanIdx.getD ((k + 1) % g.humanIdx.length) 0 ∈ g.humanIdx := by
          rw [List.getD_eq_getElem?_getD, List.getElem?_eq_getElem hlt]
          exact List.getElem_mem hlt
        exact humanIdx_mem g _ hgd
      | none =>
        exact humanIdx_mem g _ hheadmem

/-- C2 counterexample: in the concrete playing room whose other player is
dead, the current player logging out re-clamps the index onto the dead
player while the engine is not finished and the room stays playing — the
turn-holder invariant is violated after a logout. -/
theorem logout_leaves_dead_current :
    (logoutClient roomC2 "B" 0).status = GameStatus.playing ∧
    (logoutClient roomC2 "B" 0).game.gameOver = false ∧
    ((logoutClient roomC2 "B" 0).game.players.get?
        (logoutClient roomC2 "B" 0).game.currentPlayerIdx).map Player.alive = some false := by
  refine ⟨?_, ?_, ?_⟩ <;> decide

/-- C5 counterexample: with only 10 bullets the hunt action is not a no-op
rejection — it consumes the food of a travel turn (food drops from 50 to
32), so the game state does not stay unchanged. -/
theorem hunt_insufficient_ammo_mutates :
    cx5.bullets < 50 ∧ (cx5.processTurn 0 "hunt").food ≠ cx5.food := by
  constructor
  · norm_num [cx5, cx1, baseGame]
  · simp [GameState.processTurn, cx5, cx1, baseGame, humanPl, freshParty, partyNames,
      GameState.continueTravel, GameState.starvationDamage, GameState.playerAlive,
      GameState.playerIsCPU, GameState.nextFloat, Rng.nextFloat, PlayerType.isCPU,
      GameState.handleRiverCrossing, GameState.ridersAndFinish, GameState.checkRiders,
      GameState.nextIntn, Rng.nextInt, GameState.maybeFinishTurn, GameState.finishTurn]
    norm_num

/-!
## Preservation lemmas for the travel pipeline (C3)
-/


theorem pwk_refl (g : GameState) : PWK g g := ⟨rfl, rfl, rfl, fun _ => rfl⟩

theorem pwk_trans {g h k : GameState} (h1 : PWK g h) (h2 : PWK h k) : PWK g k :=
  ⟨h2.1.trans h1.1, h2.2.1.trans h1.2.1, h2.2.2.1.trans h1.2.2.1,
   fun j => (h2.2.2.2 j).trans (h1.2.2.2 j)⟩

theorem playerIsCPU_set (g : GameState) (i : ℕ) (p p' : Player)
    (hp : g.players.get? i = some p) (hk : p'.ptype = p.ptype) (j : ℕ) :
    GameState.playerIsCPU { g with players := g.players.set i p' } j = g.playerIsCPU j := by
  unfold GameState.playerIsCPU
  dsimp only
  rw [List.get?_set]
  by_cases hij : i = j
  · subst hij
    rw [if_pos rfl, hp]
    dsimp only [Option.map_eq_map, Option.map]
    rw [hk]
  · rw [if_neg hij]

theorem cad_pwk (g : GameState) : PWK g g.checkAllPlayersDead := by
  unfold GameState.checkAllPlayersDead
  split
  · exact pwk_refl g
  · exact ⟨rfl, rfl, rfl, fun _ => rfl⟩

theorem dpm_pwk (g : GameState) (i k : ℕ) (a : Int) :
    PWK g (g.damagePartyMember i k a) := by
  unfold GameState.damagePartyMember
  split
  · exact pwk_refl g
  · next p hp =>
    split
    · exact pwk_refl g
    · next m hm =>
      split
      · exact pwk_refl g
      · dsimp only
        repeat' split
        all_goals
          first
            | exact pwk_refl g
            | (refine pwk_trans ?_ (cad_pwk _)
               refine ⟨rfl, rfl, rfl, fun j => playerIsCPU_set g i p _ hp ?_ j⟩
               rfl)
            | (refine ⟨rfl, rfl, rfl, fun j => playerIsCPU_set g i p _ hp ?_ j⟩
               rfl)

theorem nextIntn_pwk (g : GameState) (n : ℕ) : PWK g (g.nextIntn n).2 := by
  unfold GameState.nextIntn
  exact ⟨rfl, rfl, rfl, fun _ => rfl⟩

theorem nextFloat_pwk (g : GameState) : PWK g (g.nextFloat).2 :=
  ⟨rfl, rfl, rfl, fun _ => rfl⟩

theorem clamp_pwk (g : GameState) : PWK g g.clampResources :=
  ⟨rfl, rfl, rfl, fun _ => rfl⟩

theorem drm_pwk (g : GameState) (i : ℕ) (a : Int) :
    PWK g (g.damageRandomMember i a) := by
  unfold GameState.damageRandomMember
  split
  · exact pwk_refl g
  · dsimp only
    split
    · exact pwk_refl g
    · exact pwk_trans (nextIntn_pwk g _) (dpm_pwk _ _ _ _)

theorem gst_pwk (g : GameState) (p : Player) : PWK g (g.getShootingTime p).2 := by
  unfold GameState.getShootingTime
  split
  · exact ⟨rfl, rfl, rfl, fun _ => rfl⟩
  · exact pwk_refl g

theorem ev0_pwk (g : GameState) (i : ℕ) : PWK g (g.eventWagonBreakdown i) :=
  ⟨rfl, rfl, rfl, fun _ => rfl⟩

theorem ev1_pwk (g : GameState) (i : ℕ) : PWK g (g.eventOxInjury i) :=
  ⟨rfl, rfl, rfl, fun _ => rfl⟩

theorem ev2_pwk (g : GameState) (i : ℕ) : PWK g (g.eventDaughterBrokenArm i) := by
  unfold GameState.eventDaughterBrokenArm
  dsimp only
  repeat' split
  all_goals
    first
      | exact ⟨rfl, rfl, rfl, fun _ => rfl⟩
      | exact pwk_trans ⟨rfl, rfl, rfl, fun _ => rfl⟩ (dpm_pwk _ _ _ _)

theorem ev3_pwk (g : GameState) (i : ℕ) : PWK g (g.eventOxWandersOff i) :=
  ⟨rfl, rfl, rfl, fun _ => rfl⟩

theorem ev4_pwk (g : GameState) (i : ℕ) : PWK g (g.eventSonGetsLost i) := by
  unfold GameState.eventSonGetsLost
  dsimp only
  repeat' split
  all_goals
    first
      | exact ⟨rfl, rfl, rfl, fun _ => rfl⟩
      | exact pwk_trans ⟨rfl, rfl, rfl, fun _ => rfl⟩ (dpm_pwk _ _ _ _)

theorem ev5_pwk (g : GameState) (i : ℕ) : PWK g (g.eventUnsafeWater i) := by
  unfold GameState.eventUnsafeWater
  exact pwk_trans ⟨rfl, rfl, rfl, fun _ => rfl⟩ (drm_pwk _ _ _)

theorem ev6_pwk (g : GameState) (i : ℕ) : PWK g (g.eventHeavyRains i) := by
  unfold GameState.eventHeavyRains
  dsimp only
  repeat' split
  all_goals
    first
      | exact ⟨rfl, rfl, rfl, fun _ => rfl⟩
      | exact pwk_trans ⟨rfl, rfl, rfl, fun _ => rfl⟩ (drm_pwk _ _ _)

theorem ev7_pwk (g : GameState) (i : ℕ) : PWK g (g.eventBandits i) := by
  unfold GameState.eventBandits
  dsimp only
  repeat' split
  all_goals
    first
      | exact ⟨rfl, rfl, rfl, fun _ => rfl⟩
      | exact pwk_trans (gst_pwk _ _) ⟨rfl, rfl, rfl, fun _ => rfl⟩
      | exact pwk_trans (pwk_trans (gst_pwk _ _) ⟨rfl, rfl, rfl, fun _ => rfl⟩) (drm_pwk _ _ _)
      | exact pwk_trans (pwk_trans (gst_pwk _ _) ⟨rfl, rfl, rfl, fun _ => rfl⟩) (clamp_pwk _)

theorem ev8_pwk (g : GameState) (i : ℕ) : PWK g (g.eventFireInWagon i) := by
  unfold GameState.eventFireInWagon
  dsimp only
  repeat' split
  all_goals
    first
      | exact ⟨rfl, rfl, rfl, fun _ => rfl⟩
      | exact pwk_trans ⟨rfl, rfl, rfl, fun _ => rfl⟩ (drm_pwk _ _ _)

theorem ev9_pwk (g : GameState) (i : ℕ) : PWK g (g.eventLostInFog i) :=
  ⟨rfl, rfl, rfl, fun _ => rfl⟩

theorem ev10_pwk (g : GameState) (i : ℕ) : PWK g (g.eventSnakeBite i) := by
  unfold GameState.eventSnakeBite
  dsimp only
  repeat' split
  all_goals
    exact pwk_trans ⟨rfl, rfl, rfl, fun _ => rfl⟩ (drm_pwk _ _ _)

theorem ev11_pwk (g : GameState) (i : ℕ) : PWK g (g.eventWagonSwamped i) :=
  ⟨rfl, rfl, rfl, fun _ => rfl⟩

theorem ev12_pwk (g : GameState) (i : ℕ) : PWK g (g.eventWildAnimals i) := by
  unfold GameState.eventWildAnimals
  dsimp only
  repeat' split
  all_goals
    first
      | exact pwk_trans (gst_pwk _ _) ⟨rfl, rfl, rfl, fun _ => rfl⟩
      | exact pwk_trans (gst_pwk _ _) (drm_pwk _ _ _)
      | exact pwk_trans (pwk_trans (gst_pwk _ _) ⟨rfl, rfl, rfl, fun _ => rfl⟩) (drm_pwk _ _ _)

theorem ev13_pwk (g : GameState) (i : ℕ) : PWK g (g.eventHailStorm i) := by
  unfold GameState.eventHailStorm
  dsimp only
  repeat' split
  all_goals
    first
      | exact ⟨rfl, rfl, rfl, fun _ => rfl⟩
      | exact pwk_trans ⟨rfl, rfl, rfl, fun _ => rfl⟩ (drm_pwk _ _ _)

theorem ev14_pwk (g : GameState) (i : ℕ) : PWK g (g.eventBadFood i) :=
  drm_pwk g i 12

theorem evAW_pwk (g : GameState) (i : ℕ) : PWK g (g.eventAbandonedWagon i) := by
  unfold GameState.eventAbandonedWagon
  exact pwk_trans ⟨rfl, rfl, rfl, fun _ => rfl⟩ (clamp_pwk _)

theorem runEvent_pwk (g : GameState) (i : ℕ) (n : ℕ) : PWK g (g.runEvent i n) := by
  unfold GameState.runEvent
  split
  all_goals
    first
      | exact ev0_pwk g i
      | exact ev1_pwk g i
      | exact ev2_pwk g i
      | exact ev3_pwk g i
      | exact ev4_pwk g i
      | exact ev5_pwk g i
      | exact ev6_pwk g i
      | exact ev7_pwk g i
      | exact ev8_pwk g i
      | exact ev9_pwk g i
      | exact ev10_pwk g i
      | exact ev11_pwk g i
      | exact ev12_pwk g i
      | exact ev13_pwk g i
      | exact ev14_pwk g i
      | exact pwk_refl g

theorem hre_pwk (g : GameState) (i : ℕ) : PWK g (g.handleRandomEvent i) := by
  unfold GameState.handleRandomEvent
  dsimp only
  split
  · exact pwk_trans
      (pwk_trans (pwk_trans (nextFloat_pwk g) (runEvent_pwk _ i _)) (nextFloat_pwk _))
      (evAW_pwk _ i)
  · exact pwk_trans (pwk_trans (nextFloat_pwk g) (runEvent_pwk _ i _)) (nextFloat_pwk _)

theorem ite_pwk {c : Prop} [Decidable c] {g a b : GameState}
    (ha : PWK g a) (hb : PWK g b) : PWK g (if c then a else b) := by
  split
  · exact ha
  · exact hb

theorem illness_pwk (g : GameState) (i : ℕ) (e : Int) : PWK g (g.handleIllness i e) := by
  unfold GameState.handleIllness
  dsimp only
  refine ite_pwk ?_ (nextFloat_pwk g)
  refine ite_pwk (pwk_trans ?_ (drm_pwk _ _ _)) ?_
  all_goals
    refine ite_pwk (pwk_trans ?_ (drm_pwk _ _ _))
      (ite_pwk (pwk_trans ?_ (drm_pwk _ _ _)) (pwk_trans ?_ (drm_pwk _ _ _)))
  all_goals exact ⟨rfl, rfl, rfl, fun _ => rfl⟩

theorem mountains_pwk (g : GameState) (i : ℕ) : PWK g (g.handleMountains i) := by
  unfold GameState.handleMountains
  dsimp only
  repeat' split
  all_goals
    first
      | (refine ⟨?_, ?_, ?_, fun _ => ?_⟩ <;>
           (dsimp only [GameState.nextFloat, GameState.clampResources, GameState.playerIsCPU]
            done))
      | (refine pwk_trans (pwk_trans ?_ (illness_pwk _ i 2)) (clamp_pwk _)
         refine ⟨?_, ?_, ?_, fun _ => ?_⟩ <;>
           (dsimp only [GameState.nextFloat, GameState.playerIsCPU]
            done))

theorem river_pwk (g : GameState) (i : ℕ) : PWK g (g.handleRiverCrossing i) := by
  unfold GameState.handleRiverCrossing
  dsimp only
  repeat' split
  all_goals
    first
      | exact pwk_refl g
      | exact ⟨rfl, rfl, rfl, fun _ => rfl⟩
      | (refine pwk_trans ?_ (drm_pwk _ _ _)
         exact ⟨rfl, rfl, rfl, fun _ => rfl⟩)

theorem checkRiders_pwk (g : GameState) : PWK g (g.checkRiders).2 := by
  unfold GameState.checkRiders
  dsimp only
  split
  · exact ⟨rfl, rfl, rfl, fun _ => rfl⟩
  · exact ⟨rfl, rfl, rfl, fun _ => rfl⟩

theorem cpuTactic_pwk (g : GameState) (h : Bool) : PWK g (g.cpuChooseTactic h).2 := by
  unfold GameState.cpuChooseTactic
  dsimp only
  repeat' split
  all_goals
    first
      | exact pwk_refl g
      | exact ⟨rfl, rfl, rfl, fun _ => rfl⟩

theorem aftermath_pwk (g : GameState) (i : ℕ) : PWK g (g.riderAftermath i) := by
  unfold GameState.riderAftermath
  dsimp only
  split
  · exact pwk_trans (drm_pwk _ _ _) (clamp_pwk _)
  · exact clamp_pwk g

theorem resolveRider_pwk (g : GameState) (i : ℕ) (t : Int) :
    PWK g (g.resolveRiderTactic i t) := by
  unfold GameState.resolveRiderTactic
  dsimp only
  repeat' split
  all_goals
    first
      | (refine ⟨?_, ?_, ?_, fun _ => ?_⟩ <;>
           (dsimp only [GameState.nextFloat, GameState.clampResources, GameState.playerIsCPU]
            done))
      | (refine pwk_trans ?_ (aftermath_pwk _ _)
         refine ⟨?_, ?_, ?_, fun _ => ?_⟩ <;>
           (dsimp only [GameState.nextFloat, GameState.clampResources, GameState.playerIsCPU]
            done))
      | (refine pwk_trans (pwk_trans (gst_pwk g (g.players.getD i default)) ?_)
           (aftermath_pwk _ _)
         refine ⟨?_, ?_, ?_, fun _ => ?_⟩ <;>
           (dsimp only [GameState.nextFloat, GameState.clampResources, GameState.playerIsCPU]
            done))
      | (refine pwk_trans
           (pwk_trans (pwk_trans (gst_pwk g (g.players.getD i default)) ?_) (drm_pwk _ _ _))
           (aftermath_pwk _ _)
         refine ⟨?_, ?_, ?_, fun _ => ?_⟩ <;>
           (dsimp only [GameState.nextFloat, GameState.clampResources, GameState.playerIsCPU]
            done))
      | (refine pwk_trans (pwk_trans ?_ (drm_pwk _ _ _)) (aftermath_pwk _ _)
         refine ⟨?_, ?_, ?_, fun _ => ?_⟩ <;>
           (dsimp only [GameState.nextFloat, GameState.clampResources, GameState.playerIsCPU]
            done))

theorem foldl_pwk (f : GameState → ℕ → GameState) (hf : ∀ h j, PWK h (f h j)) :
    ∀ (l : List ℕ) (g : GameState), PWK g (l.foldl f g)
  | [], g => pwk_refl g
  | a :: t, g => pwk_trans (hf g a) (foldl_pwk f hf t (f g a))

theorem starvation_pwk (g : GameState) (i : ℕ) : PWK g (g.starvationDamage i) := by
  unfold GameState.starvationDamage
  split
  · exact pwk_refl g
  · refine foldl_pwk _ (fun h j => ?_) _ g
    dsimp only
    split
    · exact dpm_pwk h i j 20
    · exact pwk_refl h

theorem hER_pwk (g : GameState) (i : ℕ) (e : Int) : PWK g (g.handleEatingResult i e) :=
  illness_pwk g i e

theorem finalTurn_phase (g : GameState) (i : ℕ) :
    (g.handleFinalTurn i).turnPhase = g.turnPhase := rfl

theorem ite_phase {c : Prop} [Decidable c] {a b : GameState} {t : TurnPhase}
    (ha : a.turnPhase = t) (hb : b.turnPhase = t) :
    (if c then a else b).turnPhase = t := by
  split
  · exact ha
  · exact hb

theorem finishTurn_phase (g : GameState) (i : ℕ) (e : Int) :
    (g.finishTurn i e).turnPhase = g.turnPhase := by
  unfold GameState.finishTurn
  dsimp only
  refine ite_phase ((finalTurn_phase _ _).trans ?_) ?_
  all_goals
    refine (pwk_trans (pwk_trans ?_ (illness_pwk _ i e)) (clamp_pwk _)).1
  all_goals
    refine ite_pwk (pwk_trans (ite_pwk (hre_pwk g i) (pwk_refl g)) (mountains_pwk _ _))
      (ite_pwk (hre_pwk g i) (pwk_refl g))

theorem maybeFinishTurn_phase (g : GameState) (i : ℕ) (e : Int) :
    (g.maybeFinishTurn i e).turnPhase = g.turnPhase := by
  unfold GameState.maybeFinishTurn
  split
  · exact finishTurn_phase g i e
  · rfl



/-- Rider paragraph of `ContinueTravel`: either the turn runs to completion
(phase preserved) or it suspends into the riders phase with the win flag
untouched and the eating tier recorded. -/
theorem raf_susp (g g3 : GameState) (i : ℕ) (e : Int) (bT : ℚ)
    (hW : PWK g g3) (hcpu : g.playerIsCPU i = false) :
    (g3.ridersAndFinish i e bT).turnPhase = g.turnPhase ∨
    ((g3.ridersAndFinish i e bT).turnPhase = TurnPhase.riders ∧
     (g3.ridersAndFinish i e bT).win = g.win ∧
     (g3.ridersAndFinish i e bT).pendingEatingLevel = e) := by
  unfold GameState.ridersAndFinish
  dsimp only
  split
  · split
    · have hcg : PWK g (g3.checkRiders).2 := pwk_trans hW (checkRiders_pwk g3)
      have hc : (g3.checkRiders).2.playerIsCPU i = false := (hcg.2.2.2 i).trans hcpu
      rw [hc]
      rw [if_pos (show (!false) = true from rfl)]
      right
      exact ⟨rfl, hcg.2.1, rfl⟩
    · left
      exact (maybeFinishTurn_phase _ i e).trans (pwk_trans hW (checkRiders_pwk g3)).1
  · left
    exact (maybeFinishTurn_phase _ i e).trans hW.1

/-- `ContinueTravel` for a human player: either the phase is preserved (the
turn completed or the player died) or the state suspends into the riders
phase, keeping the win flag and recording eating tier 2. -/
theorem continueTravel_susp (g : GameState) (i : ℕ)
    (hcpu : g.playerIsCPU i = false) :
    (g.continueTravel i).turnPhase = g.turnPhase ∨
    ((g.continueTravel i).turnPhase = TurnPhase.riders ∧
     (g.continueTravel i).win = g.win ∧
     (g.continueTravel i).pendingEatingLevel = 2) := by
  unfold GameState.continueTravel
  dsimp only
  have hA : PWK g (if g.food < (13 : ℚ) then g.starvationDamage i else g) := by
    split
    · exact starvation_pwk g i
    · exact pwk_refl g
  generalize hg0 : (if g.food < (13 : ℚ) then g.starvationDamage i else g) = g0 at hA ⊢
  have hcpu0 : g0.playerIsCPU i = false := (hA.2.2.2 i).trans hcpu
  split
  · left
    exact hA.1
  · rw [hcpu0, if_neg Bool.false_ne_true]
    refine raf_susp g _ i 2 _ ?_ hcpu
    refine pwk_trans ?_ (river_pwk _ i)
    exact pwk_trans hA ⟨rfl, rfl, rfl, fun _ => rfl⟩



/-- C3: Entering the `hunting` or `riders` interactive sub-phase defers the
remainder of the turn — a human hunt with enough ammunition suspends with
win, game-over, mileage, food and the party untouched; a `continue` turn
either completes back to the main menu or suspends into the riders phase
with the win flag unchanged and eating tier 2 recorded; the deferred rider
resolution feeds `FinishTurn` exactly the tier recorded before suspension;
and concretely a hunt started at mileage 4490 does not set the win flag
until `HandleHuntShoot` pushes mileage to 4535 ≥ 4500. -/
theorem suspension_defers_finish (g : GameState) (i : ℕ) (p : Player)
    (hp : g.players.get? i = some p) (halive : p.alive = true)
    (hhum : p.ptype = PlayerType.human) (hb : (50 : ℚ) ≤ g.bullets) :
    ((g.processTurn i "hunt").turnPhase = TurnPhase.hunting ∧
     (g.processTurn i "hunt").win = g.win ∧
     (g.processTurn i "hunt").gameOver = g.gameOver ∧
     (g.processTurn i "hunt").mileage = g.mileage ∧
     (g.processTurn i "hunt").food = g.food ∧
     (g.processTurn i "hunt").players = g.players) ∧
    ((g.processTurn i "continue").turnPhase = TurnPhase.mainMenu ∨
     ((g.processTurn i "continue").turnPhase = TurnPhase.riders ∧
      (g.processTurn i "continue").win = g.win ∧
      (g.processTurn i "continue").pendingEatingLevel = 2)) ∧
    (∀ t, (g.resolveRiderTactic i t).pendingEatingLevel = g.pendingEatingLevel ∧
          g.handleRiderTactic i t =
            (let g1 := g.resolveRiderTactic i t
             let g2 := if !g1.gameOver && g1.playerAlive i
                       then g1.finishTurn i g.pendingEatingLevel else g1
             { g2 with turnPhase := TurnPhase.mainMenu })) ∧
    ((gC3.processTurn 0 "hunt").win = false ∧
     (gC3.processTurn 0 "hunt").mileage = 4490 ∧
     (gC3.processTurn 0 "hunt").turnPhase = TurnPhase.hunting ∧
     ((gC3.processTurn 0 "hunt").handleHuntShoot 0 250).mileage = 4535 ∧
     ((gC3.processTurn 0 "hunt").handleHuntShoot 0 250).win = true) := by
  have hcpu : g.playerIsCPU i = false := by
    unfold GameState.playerIsCPU
    rw [hp]
    dsimp only
    rw [hhum]
    rfl
  have hcpuF : p.ptype.isCPU = false := by
    rw [hhum]
    rfl
  refine ⟨?_, ?_, ?_, ?_⟩
  · unfold GameState.processTurn
    rw [hp]
    dsimp only
    rw [halive, if_neg (by decide), if_pos rfl]
    rw [if_pos (show ({ g with turnPhase := TurnPhase.mainMenu } : GameState).bullets ≥ 50 from hb)]
    rw [hcpuF, if_neg Bool.false_ne_true]
    exact ⟨rfl, rfl, rfl, rfl, rfl, rfl⟩
  · unfold GameState.processTurn
    rw [hp]
    dsimp only
    rw [halive, if_neg (by decide), if_neg (by decide)]
    exact continueTravel_susp { g with turnPhase := TurnPhase.mainMenu } i hcpu
  · intro t
    refine ⟨(resolveRider_pwk g i t).2.2.1, ?_⟩
    unfold GameState.handleRiderTactic
    rw [hp]
    dsimp only
    rw [(resolveRider_pwk g i t).2.2.1]
  · refine ⟨?_, ?_, ?_, ?_, ?_⟩
    all_goals
      simp [GameState.processTurn, gC3, cx1, baseGame, humanPl, freshParty, partyNames,
        GameState.getShootingPrompt, shootingWords, GameState.nextIntn, Rng.nextInt,
        PlayerType.isCPU, GameState.handleHuntShoot, GameState.nextFloat, Rng.nextFloat,
        GameState.clampResources, GameState.handleFinalTurn, TrailLength]
    all_goals norm_num

/-- Witness for C3 at the concrete pre-win state `gC3`. -/
theorem suspension_defers_finish_witness :
    (50 : ℚ) ≤ gC3.bullets ∧ (gC3.processTurn 0 "hunt").turnPhase = TurnPhase.hunting :=
  ⟨by norm_num [gC3, cx1, baseGame],
   (suspension_defers_finish gC3 0 (humanPl "A" "alice") rfl rfl rfl
     (by norm_num [gC3, cx1, baseGame])).1.1⟩




/-- C8 (amended): when any player matches the joining client by connection
id OR display name, `Server.AddClient` appends no second player: the first
player in list order with either match — not id-priority — is rebound to
the new connection id, every party is untouched, and the shared resources
are untouched. -/
theorem addClient_match_rebinds (room : Room) (c : Client) (j : ℕ) (p : Player)
    (hw : (room.roomType.isScheduled && !room.status.isWaiting) = false)
    (hj : (List.range room.game.players.length).find?
        (fun k => match room.game.players.get? k with
          | some q => q.id == c.id || q.name == c.name
          | none => false) = some j)
    (hp : room.game.players.get? j = some p) :
    addClient room c =
      fixupCurrentIdx { room with
        game := { room.game with players := room.game.players.set j { p with id := c.id } },
        clients := setClientPlayer (insertClient room.clients { c with roomID := room.id })
          c.id (some j) } ∧
    (addClient room c).game.players.length = room.game.players.length ∧
    (∀ k, ((addClient room c).game.players.get? k).map Player.party
        = (room.game.players.get? k).map Player.party) ∧
    (addClient room c).game.food = room.game.food ∧
    (addClient room c).game.bullets = room.game.bullets ∧
    (addClient room c).game.cash = room.game.cash := by
  have hmain : addClient room c =
      fixupCurrentIdx { room with
        game := { room.game with players := room.game.players.set j { p with id := c.id } },
        clients := setClientPlayer (insertClient room.clients { c with roomID := room.id })
          c.id (some j) } := by
    unfold addClient
    dsimp only
    rw [hw, if_neg Bool.false_ne_true, hj]
    dsimp only
    rw [hp]
  refine ⟨hmain, ?_, ?_, ?_, ?_, ?_⟩
  all_goals rw [hmain]
  · unfold fixupCurrentIdx
    split
    all_goals
      dsimp only
      exact List.length_set room.game.players j _
  · intro k
    have hset : ((room.game.players.set j { p with id := c.id }).get? k).map Player.party
        = (room.game.players.get? k).map Player.party := by
      rw [List.get?_set]
      by_cases hjk : j = k
      · subst hjk
        rw [if_pos rfl, hp]
        rfl
      · rw [if_neg hjk]
    unfold fixupCurrentIdx
    split
    all_goals
      dsimp only
      exact hset
  all_goals
    unfold fixupCurrentIdx
    split
    all_goals rfl

/-- Witness for C8 at the collision room: the guard, the match at index 0
and the stored player are all concrete. -/
theorem addClient_match_rebinds_witness :
    (roomC8.roomType.isScheduled && !roomC8.status.isWaiting) = false ∧
    (addClient roomC8 cC8).game.players.length = roomC8.game.players.length :=
  ⟨by decide,
   (addClient_match_rebinds roomC8 cC8 0 (humanPl "x" "bob") (by decide) (by decide) rfl).2.1⟩

/-- C8 counterexample: the joining connection id `conn7` equals player 1's
connection id, but the display name `bob` matches player 0, and the single
either-match pass binds the client to player 0 and overwrites its id —
after the join two players carry the same connection id, so the recovery
is not id-first. -/
theorem addClient_name_over_id :
    (addClient roomC8 cC8).game.players.map Player.id = ["conn7", "conn7"] ∧
    ((addClient roomC8 cC8).clients.find? (fun x => x.id == "conn7")).map Client.playerIdx
      = some (some 0) ∧
    roomC8.game.players.map Player.id = ["x", "conn7"] ∧
    cC8.id = "conn7" := by
  refine ⟨?_, ?_, ?_, rfl⟩
  all_goals decide




/-- C6: in the scheduled two-player room with food 100 and ammunition 50,
player A's hunt action suspends into the hunting phase, costs exactly 50
ammunition, leaves mileage unchanged and keeps the turn with A; the
subsequent `resolveHunt(250)` (accuracy tier 0 ≤ 2) adds 52 + 6·f1 ∈
[52, 58) food, advances mileage by 45 + 20·f2 ∈ [45, 65), returns to the
main menu and passes the turn to player B. -/
theorem hunt_scenario (f1 f2 : ℚ) (h1 : 0 ≤ f1) (h1b : f1 < 1)
    (h2 : 0 ≤ f2) (h2b : f2 < 1) :
    (handleAction [] (roomC6 f1 f2) "A" "hunt" 0).2.game.turnPhase = TurnPhase.hunting ∧
    (handleAction [] (roomC6 f1 f2) "A" "hunt" 0).2.game.bullets
      = (roomC6 f1 f2).game.bullets - 50 ∧
    (handleAction [] (roomC6 f1 f2) "A" "hunt" 0).2.game.mileage
      = (roomC6 f1 f2).game.mileage ∧
    (handleAction [] (roomC6 f1 f2) "A" "hunt" 0).2.game.currentPlayerIdx = 0 ∧
    (serverHandleHuntShoot [] (handleAction [] (roomC6 f1 f2) "A" "hunt" 0).2
        "A" 250 0).2.game.food = 152 + 6 * f1 ∧
    (roomC6 f1 f2).game.food + 52
      ≤ (serverHandleHuntShoot [] (handleAction [] (roomC6 f1 f2) "A" "hunt" 0).2
          "A" 250 0).2.game.food ∧
    (serverHandleHuntShoot [] (handleAction [] (roomC6 f1 f2) "A" "hunt" 0).2
        "A" 250 0).2.game.food < (roomC6 f1 f2).game.food + 58 ∧
    (serverHandleHuntShoot [] (handleAction [] (roomC6 f1 f2) "A" "hunt" 0).2
        "A" 250 0).2.game.mileage = (roomC6 f1 f2).game.mileage + (45 + 20 * f2) ∧
    (roomC6 f1 f2).game.mileage + 45
      ≤ (serverHandleHuntShoot [] (handleAction [] (roomC6 f1 f2) "A" "hunt" 0).2
          "A" 250 0).2.game.mileage ∧
    (serverHandleHuntShoot [] (handleAction [] (roomC6 f1 f2) "A" "hunt" 0).2
        "A" 250 0).2.game.mileage < (roomC6 f1 f2).game.mileage + 65 ∧
    (serverHandleHuntShoot [] (handleAction [] (roomC6 f1 f2) "A" "hunt" 0).2
        "A" 250 0).2.game.turnPhase = TurnPhase.mainMenu ∧
    (serverHandleHuntShoot [] (handleAction [] (roomC6 f1 f2) "A" "hunt" 0).2
        "A" 250 0).2.game.currentPlayerIdx = 1 := by
  have hr1 : (handleAction [] (roomC6 f1 f2) "A" "hunt" 0).2
      = { roomC6 f1 f2 with
            game := { gC6 f1 f2 with
                        turnPhase := TurnPhase.hunting
                        bullets := 0
                        huntWord := "BANG"
                        rng := ⟨[f1, f2], []⟩ } } := by
    simp [handleAction, roomC6, gC6, clA, clB, baseGame, humanPl, freshParty, partyNames,
      GameState.processTurn, GameState.playerAlive, GameState.playerIsCPU, PlayerType.isCPU,
      GameState.getShootingPrompt, shootingWords, GameState.nextIntn, Rng.nextInt,
      TurnPhase.isFort, TurnPhase.isHunting, TurnPhase.isRiders,
      RoomType.isContinuous, RoomType.isScheduled]
  have hr2 : (serverHandleHuntShoot []
      { roomC6 f1 f2 with
          game := { gC6 f1 f2 with
                      turnPhase := TurnPhase.hunting
                      bullets := 0
                      huntWord := "BANG"
                      rng := ⟨[f1, f2], []⟩ } } "A" 250 0).2
      = { roomC6 f1 f2 with
            game := { gC6 f1 f2 with
                        currentPlayerIdx := 1
                        turnNumber := 2
                        mileage := 45 + f2 * 20
                        food := 100 + (52 + f1 * 6)
                        bullets := 0
                        turnPhase := TurnPhase.mainMenu
                        rng := ⟨[], []⟩
                        huntWord := "BANG" }
            turnTimer := some "B"
            turnDeadline := 20 } := by
    norm_num [roomC6, gC6, clA, clB, baseGame, humanPl, freshParty, partyNames,
      serverHandleHuntShoot, GameState.handleHuntShoot, GameState.nextFloat, Rng.nextFloat,
      GameState.clampResources, GameState.handleFinalTurn, TrailLength,
      GameState.nextTurn, GameState.humanIdx, PlayerType.isHuman, advanceTurnAndCheckFort,
      startTurnTimer, finishEntries, cancelTurnTimer,
      TurnPhase.isFort, TurnPhase.isHunting, TurnPhase.isRiders,
      RoomType.isContinuous, RoomType.isScheduled,
      show ¬(45 + f2 * 20 < (0:ℚ)) from by linarith,
      show ¬(100 + (52 + f1 * 6) < (0:ℚ)) from by linarith,
      show ¬((4500:ℚ) ≤ 45 + f2 * 20) from by linarith,
      show List.range 2 = [0, 1] from by decide,
      List.filter_cons, List.filter_nil, List.findIdx?_cons, List.findIdx?_nil,
      List.any_cons, List.any_nil, List.headD, List.getD]
  rw [hr1, hr2]
  refine ⟨rfl, ?_, ?_, rfl, ?_, ?_, ?_, ?_, ?_, ?_, rfl, rfl⟩
  all_goals
    simp only [roomC6, gC6, baseGame]
  all_goals linarith

/-- Witness for C6 at the zero float draws. -/
theorem hunt_scenario_witness :
    (0 : ℚ) ≤ 0 ∧ (0 : ℚ) < 1 ∧
    (serverHandleHuntShoot [] (handleAction [] (roomC6 0 0) "A" "hunt" 0).2
        "A" 250 0).2.game.currentPlayerIdx = 1 :=
  ⟨le_rfl, by norm_num,
   (hunt_scenario 0 0 le_rfl (by norm_num) le_rfl (by norm_num)).2.2.2.2.2.2.2.2.2.2.2⟩


/-!
## Resource nonnegativity (C1)
-/

theorem rp_refl (g : GameState) : RP g g := ⟨rfl, rfl, rfl, rfl, rfl, rfl, rfl⟩

theorem rp_trans {g h k : GameState} (h1 : RP g h) (h2 : RP h k) : RP g k :=
  ⟨h2.1.trans h1.1, h2.2.1.trans h1.2.1, h2.2.2.1.trans h1.2.2.1,
   h2.2.2.2.1.trans h1.2.2.2.1, h2.2.2.2.2.1.trans h1.2.2.2.2.1,
   h2.2.2.2.2.2.1.trans h1.2.2.2.2.2.1, h2.2.2.2.2.2.2.trans h1.2.2.2.2.2.2⟩

theorem core_of {g : GameState} (h : ResNonneg g) : ResNonnegCore g :=
  ⟨h.2.1, h.2.2.1, h.2.2.2.1, h.2.2.2.2.1, h.2.2.2.2.2.2⟩

theorem core_rp {g h : GameState} (hrp : RP g h) (hc : ResNonnegCore g) :
    ResNonnegCore h := by
  unfold ResNonnegCore
  rw [hrp.2.1, hrp.2.2.1, hrp.2.2.2.1, hrp.2.2.2.2.1, hrp.2.2.2.2.2.2]
  exact hc

theorem nonneg_rp {g h : GameState} (hrp : RP g h) (hc : ResNonneg g) :
    ResNonneg h := by
  unfold ResNonneg
  rw [hrp.1, hrp.2.1, hrp.2.2.1, hrp.2.2.2.1, hrp.2.2.2.2.1, hrp.2.2.2.2.2.1,
    hrp.2.2.2.2.2.2]
  exact hc

theorem cad_rp (g : GameState) : RP g g.checkAllPlayersDead := by
  unfold GameState.checkAllPlayersDead
  split
  · exact rp_refl g
  · exact ⟨rfl, rfl, rfl, rfl, rfl, rfl, rfl⟩

theorem dpm_rp (g : GameState) (i k : ℕ) (a : Int) :
    RP g (g.damagePartyMember i k a) := by
  unfold GameState.damagePartyMember
  split
  · exact rp_refl g
  · split
    · exact rp_refl g
    · split
      · exact rp_refl g
      · dsimp only
        repeat' split
        all_goals
          first
            | exact rp_refl g
            | (refine rp_trans ?_ (cad_rp _)
               exact ⟨rfl, rfl, rfl, rfl, rfl, rfl, rfl⟩)
            | exact ⟨rfl, rfl, rfl, rfl, rfl, rfl, rfl⟩

theorem nextIntn_rp (g : GameState) (n : ℕ) : RP g (g.nextIntn n).2 :=
  ⟨rfl, rfl, rfl, rfl, rfl, rfl, rfl⟩

theorem nextFloat_rp (g : GameState) : RP g (g.nextFloat).2 :=
  ⟨rfl, rfl, rfl, rfl, rfl, rfl, rfl⟩

theorem drm_rp (g : GameState) (i : ℕ) (a : Int) :
    RP g (g.damageRandomMember i a) := by
  unfold GameState.damageRandomMember
  split
  · exact rp_refl g
  · dsimp only
    split
    · exact rp_refl g
    · exact rp_trans (nextIntn_rp g _) (dpm_rp _ _ _ _)

theorem foldl_rp (f : GameState → ℕ → GameState) (hf : ∀ h j, RP h (f h j)) :
    ∀ (l : List ℕ) (g : GameState), RP g (l.foldl f g)
  | [], g => rp_refl g
  | a :: t, g => rp_trans (hf g a) (foldl_rp f hf t (f g a))

theorem starvation_rp (g : GameState) (i : ℕ) : RP g (g.starvationDamage i) := by
  unfold GameState.starvationDamage
  split
  · exact rp_refl g
  · refine foldl_rp _ (fun h j => ?_) _ g
    dsimp only
    split
    · exact dpm_rp h i j 20
    · exact rp_refl h

theorem checkRiders_rp (g : GameState) : RP g (g.checkRiders).2 := by
  unfold GameState.checkRiders
  dsimp only
  split
  · exact ⟨rfl, rfl, rfl, rfl, rfl, rfl, rfl⟩
  · exact ⟨rfl, rfl, rfl, rfl, rfl, rfl, rfl⟩

theorem cpuTactic_rp (g : GameState) (h : Bool) : RP g (g.cpuChooseTactic h).2 := by
  unfold GameState.cpuChooseTactic
  dsimp only
  repeat' split
  all_goals
    first
      | exact rp_refl g
      | exact ⟨rfl, rfl, rfl, rfl, rfl, rfl, rfl⟩

theorem clamp_nonneg (g : GameState) : ResNonneg g.clampResources := by
  unfold ResNonneg GameState.clampResources
  dsimp only
  refine ⟨?_, ?_, ?_, ?_, ?_, ?_, ?_⟩
  all_goals split
  all_goals linarith

theorem finalTurn_nonneg {g : GameState} (i : ℕ) (h : ResNonneg g) :
    ResNonneg (g.handleFinalTurn i) :=
  ⟨h.1, h.2.1, h.2.2.1, h.2.2.2.1, h.2.2.2.2.1, h.2.2.2.2.2.1, h.2.2.2.2.2.2⟩

/-- FinishTurn always ends in the clamp (the win celebration touches no
resource), so its result is fully nonnegative. -/
theorem finishTurn_nonneg (g : GameState) (i : ℕ) (e : Int) :
    ResNonneg (g.finishTurn i e) := by
  unfold GameState.finishTurn
  lift_lets
  extract_lets a b c d
  split
  · exact finalTurn_nonneg i (clamp_nonneg c)
  · exact clamp_nonneg c

theorem mft_nonneg {g : GameState} (i : ℕ) (e : Int) (hres : ResNonneg g) :
    ResNonneg (g.maybeFinishTurn i e) := by
  unfold GameState.maybeFinishTurn
  split
  · exact finishTurn_nonneg g i e
  · exact hres

theorem aftermath_nonneg (g : GameState) (i : ℕ) : ResNonneg (g.riderAftermath i) := by
  unfold GameState.riderAftermath
  dsimp only
  split
  · exact clamp_nonneg _
  · exact clamp_nonneg _

theorem resolveRider_nonneg (g : GameState) (i : ℕ) (t : Int) :
    ResNonneg (g.resolveRiderTactic i t) := by
  unfold GameState.resolveRiderTactic
  dsimp only
  repeat' split
  all_goals exact clamp_nonneg _

theorem river_core {g : GameState} (i : ℕ) (hc : ResNonnegCore g) :
    ResNonnegCore (g.handleRiverCrossing i) := by
  unfold GameState.handleRiverCrossing
  dsimp only
  repeat' split
  all_goals
    first
      | exact hc
      | exact core_rp (nextFloat_rp g) hc
      | (refine core_rp (drm_rp _ _ _) (core_of (clamp_nonneg _)))

theorem bool_guard {a b : Bool} (h : ¬(!a && b) = true) : a = true ∨ b = false := by
  cases a
  · cases b
    · exact Or.inr rfl
    · exact absurd rfl h
  · exact Or.inl rfl


theorem nonneg_phase {g : GameState} (t : TurnPhase) (h : ResNonneg g) :
    ResNonneg { g with turnPhase := t } :=
  ⟨h.1, h.2.1, h.2.2.1, h.2.2.2.1, h.2.2.2.2.1, h.2.2.2.2.2.1, h.2.2.2.2.2.2⟩

theorem winIte_nonneg (X : GameState) (i : ℕ) {c : Prop} [Decidable c] :
    ResNonneg (if c then (X.clampResources).handleFinalTurn i else X.clampResources) := by
  split
  · exact finalTurn_nonneg i (clamp_nonneg X)
  · exact clamp_nonneg X

theorem winIteP_nonneg (X : GameState) (i : ℕ) (t : TurnPhase) {c : Prop} [Decidable c] :
    ResNonneg (if c then ({ X.clampResources with turnPhase := t }).handleFinalTurn i
               else { X.clampResources with turnPhase := t }) := by
  split
  · exact finalTurn_nonneg i (nonneg_phase t (clamp_nonneg X))
  · exact nonneg_phase t (clamp_nonneg X)

theorem handleHunting_nonneg (g : GameState) (i : ℕ) (hres : ResNonneg g) :
    ResNonneg (g.handleHunting i) := by
  unfold GameState.handleHunting
  dsimp only
  split
  · exact hres
  · exact winIte_nonneg _ i

theorem huntShoot_nonneg (g : GameState) (i : ℕ) (ms : Int) (hres : ResNonneg g) :
    ResNonneg (g.handleHuntShoot i ms) := by
  unfold GameState.handleHuntShoot
  split
  · exact hres
  · dsimp only
    exact winIteP_nonneg _ i TurnPhase.mainMenu

theorem riderTactic_nonneg (g : GameState) (i : ℕ) (t : Int) (hres : ResNonneg g) :
    ResNonneg (g.handleRiderTactic i t) := by
  unfold GameState.handleRiderTactic
  split
  · exact hres
  · dsimp only
    split
    · exact nonneg_phase _ (finishTurn_nonneg _ i _)
    · exact nonneg_phase _ (resolveRider_nonneg _ _ _)

theorem fortBuy_nonneg (g : GameState) (item : String) (qty : Int)
    (hres : ResNonneg g) : ResNonneg (g.handleFortBuy item qty).2 := by
  unfold GameState.handleFortBuy
  dsimp only
  repeat' split
  all_goals
    first
      | exact hres
      | exact clamp_nonneg _

theorem fortSell_nonneg (g : GameState) (item : String) (qty : Int)
    (hres : ResNonneg g) : ResNonneg (g.handleFortSell item qty).2 := by
  unfold GameState.handleFortSell
  dsimp only
  repeat' split
  all_goals
    first
      | exact hres
      | exact clamp_nonneg _

theorem fortEnter_nonneg (g : GameState) : ResNonneg g.fortEnter :=
  clamp_nonneg _

theorem fortLeave_nonneg (g : GameState) (hres : ResNonneg g) :
    ResNonneg g.handleFortLeave :=
  nonneg_phase _ hres

theorem nofood_of {g : GameState} (h : ResNonneg g) : ResNonnegNoFood g :=
  ⟨h.2.1, h.2.2.1, h.2.2.2.1, h.2.2.2.2.1, h.2.2.2.2.2.1, h.2.2.2.2.2.2⟩

theorem playerAlive_set (g : GameState) (i : ℕ) (p p' : Player)
    (hp : g.players.get? i = some p) :
    GameState.playerAlive { g with players := g.players.set i p' } i = p'.alive := by
  unfold GameState.playerAlive
  dsimp only
  rw [List.get?_set, if_pos rfl, hp]
  dsimp only [Option.map_eq_map, Option.map]

theorem cad_players (g : GameState) : g.checkAllPlayersDead.players = g.players := by
  unfold GameState.checkAllPlayersDead
  split
  · rfl
  · rfl

theorem cad_playerAlive (g : GameState) (j : ℕ) :
    g.checkAllPlayersDead.playerAlive j = g.playerAlive j := by
  unfold GameState.playerAlive
  rw [cad_players]

/-- A damaged player that is still alive afterwards was alive before, and the
damage did not flip the finished flag (only a leader death, which kills the
player, triggers the all-dead check). -/
theorem dpm_alive_imp (g : GameState) (i k : ℕ) (a : Int) :
    (g.damagePartyMember i k a).playerAlive i = true →
    g.playerAlive i = true ∧ (g.damagePartyMember i k a).gameOver = g.gameOver := by
  unfold GameState.damagePartyMember
  split
  · exact fun h => ⟨h, rfl⟩
  · next p hp =>
    split
    · exact fun h => ⟨h, rfl⟩
    · next m hm =>
      split
      · exact fun h => ⟨h, rfl⟩
      · dsimp only
        have hpa : g.playerAlive i = p.alive := by
          unfold GameState.playerAlive
          rw [hp]
        repeat' split
        all_goals intro h
        all_goals
          first
            | (rw [cad_playerAlive, playerAlive_set g i p _ hp] at h
               exact Bool.noConfusion h)
            | (rw [playerAlive_set g i p _ hp] at h
               refine ⟨?_, rfl⟩
               rw [hpa]
               exact h)

theorem foldl_alive_mono (i : ℕ) (f : GameState → ℕ → GameState)
    (hf : ∀ h j, (f h j).playerAlive i = true → h.playerAlive i = true) :
    ∀ (l : List ℕ) (x : GameState),
      (l.foldl f x).playerAlive i = true → x.playerAlive i = true
  | [], _ => fun h => h
  | a :: t, x => fun h => hf x a (foldl_alive_mono i f hf t (f x a) h)

theorem foldl_alive_go (i : ℕ) (f : GameState → ℕ → GameState)
    (hf : ∀ h j, (f h j).playerAlive i = true →
      h.playerAlive i = true ∧ (f h j).gameOver = h.gameOver) :
    ∀ (l : List ℕ) (x : GameState),
      (l.foldl f x).playerAlive i = true → (l.foldl f x).gameOver = x.gameOver
  | [], _ => fun _ => rfl
  | a :: t, x => fun h =>
      (foldl_alive_go i f hf t (f x a) h).trans
        (hf x a (foldl_alive_mono i f (fun h2 j h3 => (hf h2 j h3).1) t (f x a) h)).2

/-- If the acting player survives the starvation damage, the finished flag
is untouched by it. -/
theorem starvation_alive_go (g : GameState) (i : ℕ) :
    (g.starvationDamage i).playerAlive i = true →
    (g.starvationDamage i).gameOver = g.gameOver := by
  unfold GameState.starvationDamage
  split
  · exact fun _ => rfl
  · refine foldl_alive_go i _ (fun h j => ?_) _ g
    dsimp only
    split
    · exact dpm_alive_imp h i j 20
    · exact fun hh => ⟨hh, rfl⟩

/-- A river crossing either only consumes randomness (no mishap) or ran its
clamp: every mishap branch clamps before the member damage. -/
theorem river_cases (g : GameState) (i : ℕ) :
    (∃ r, g.handleRiverCrossing i = { g with rng := r }) ∨
    ResNonneg (g.handleRiverCrossing i) := by
  unfold GameState.handleRiverCrossing
  dsimp only
  repeat' split
  all_goals
    first
      | exact Or.inl ⟨_, rfl⟩
      | exact Or.inr (nonneg_rp (drm_rp _ _ _) (clamp_nonneg _))

theorem checkRiders_pg (g : GameState) :
    (∀ j, (g.checkRiders).2.playerAlive j = g.playerAlive j) ∧
    (g.checkRiders).2.gameOver = g.gameOver := by
  unfold GameState.checkRiders
  dsimp only
  split
  · exact ⟨fun _ => rfl, rfl⟩
  · exact ⟨fun _ => rfl, rfl⟩

/-- The rider paragraph keeps every non-food resource and mileage
nonnegative, and food nonnegative except at the riders suspension: a fully
clamped pre-state completes or suspends clamped, and a live, unfinished
pre-state with nonnegative core and travel-bounded mileage never skips the
deferred clamp except by suspending. -/
theorem raf_nn2 (g3 : GameState) (i : ℕ) (e : Int) (bT : ℚ)
    (h : ResNonneg g3 ∨
      (g3.playerAlive i = true ∧ g3.gameOver = false ∧ ResNonnegCore g3 ∧
       (1 < bT → 0 ≤ g3.mileage))) :
    ResNonnegNoFood (g3.ridersAndFinish i e bT) ∧
    (0 ≤ (g3.ridersAndFinish i e bT).food ∨
     (g3.ridersAndFinish i e bT).turnPhase = TurnPhase.riders) := by
  unfold GameState.ridersAndFinish
  dsimp only
  split
  · next hcond =>
    split
    · split
      · rcases h with hnn | ⟨hal, hgo3, hcore, hm⟩
        · have hcg : ResNonneg (g3.checkRiders).2 := nonneg_rp (checkRiders_rp g3) hnn
          exact ⟨⟨hcg.2.1, hcg.2.2.1, hcg.2.2.2.1, hcg.2.2.2.2.1, hcg.2.2.2.2.2.1,
            hcg.2.2.2.2.2.2⟩, Or.inr rfl⟩
        · have hbt : (1 : ℚ) < bT := by
            simp only [Bool.and_eq_true, decide_eq_true_eq] at hcond
            exact hcond.1.1
          have hcg : ResNonnegCore (g3.checkRiders).2 := core_rp (checkRiders_rp g3) hcore
          have hmil : 0 ≤ (g3.checkRiders).2.mileage := by
            rw [(checkRiders_rp g3).2.2.2.2.2.1]
            exact hm hbt
          exact ⟨⟨hcg.1, hcg.2.1, hcg.2.2.1, hcg.2.2.2.1, hmil, hcg.2.2.2.2⟩, Or.inr rfl⟩
      · exact ⟨nofood_of (mft_nonneg i e (resolveRider_nonneg _ _ _)),
          Or.inl (mft_nonneg i e (resolveRider_nonneg _ _ _)).1⟩
    · unfold GameState.maybeFinishTurn
      split
      · exact ⟨nofood_of (finishTurn_nonneg _ i e),
          Or.inl (finishTurn_nonneg _ i e).1⟩
      · next hskip =>
        rcases h with hnn | ⟨hal, hgo3, _, _⟩
        · have hcg : ResNonneg (g3.checkRiders).2 := nonneg_rp (checkRiders_rp g3) hnn
          exact ⟨nofood_of hcg, Or.inl hcg.1⟩
        · rw [(checkRiders_pg g3).2, (checkRiders_pg g3).1 i, hal, hgo3] at hskip
          exact absurd rfl hskip
  · unfold GameState.maybeFinishTurn
    split
    · exact ⟨nofood_of (finishTurn_nonneg _ i e),
        Or.inl (finishTurn_nonneg _ i e).1⟩
    · next hskip =>
      rcases h with hnn | ⟨hal, hgo3, _, _⟩
      · exact ⟨nofood_of hnn, Or.inl hnn.1⟩
      · rw [hal, hgo3] at hskip
        exact absurd rfl hskip

theorem river_raf_nn (g2 : GameState) (i : ℕ) (e : Int) (bT : ℚ)
    (hal : g2.playerAlive i = true) (hgo : g2.gameOver = false)
    (hcore : ResNonnegCore g2) (hm : 1 < bT → 0 ≤ g2.mileage) :
    ResNonnegNoFood ((g2.handleRiverCrossing i).ridersAndFinish i e bT) ∧
    (0 ≤ ((g2.handleRiverCrossing i).ridersAndFinish i e bT).food ∨
     ((g2.handleRiverCrossing i).ridersAndFinish i e bT).turnPhase = TurnPhase.riders) := by
  refine raf_nn2 (g2.handleRiverCrossing i) i e bT ?_
  rcases river_cases g2 i with ⟨r, hr⟩ | hnn
  · right
    rw [hr]
    exact ⟨hal, hgo, hcore, fun hb => hm hb⟩
  · left
    exact hnn

theorem continueTravel_nn2 (g : GameState) (i : ℕ) (hres : ResNonneg g)
    (hgo : g.gameOver = false) :
    ResNonnegNoFood (g.continueTravel i) ∧
    (0 ≤ (g.continueTravel i).food ∨
     (g.continueTravel i).turnPhase = TurnPhase.riders) := by
  unfold GameState.continueTravel
  dsimp only
  have hA : RP g (if g.food < (13 : ℚ) then g.starvationDamage i else g) ∧
      ((if g.food < (13 : ℚ) then g.starvationDamage i else g).playerAlive i = true →
       (if g.food < (13 : ℚ) then g.starvationDamage i else g).gameOver = g.gameOver) := by
    split
    · exact ⟨starvation_rp g i, starvation_alive_go g i⟩
    · exact ⟨rp_refl g, fun _ => rfl⟩
  generalize hg0 : (if g.food < (13 : ℚ) then g.starvationDamage i else g) = g0 at hA ⊢
  obtain ⟨hArp, hAgo⟩ := hA
  have h0 : ResNonneg g0 := nonneg_rp hArp hres
  split
  · exact ⟨nofood_of h0, Or.inl h0.1⟩
  · next hAl =>
    have hal0 : g0.playerAlive i = true := by
      cases hh : g0.playerAlive i
      · rw [hh] at hAl
        exact absurd rfl hAl
      · rfl
    have hgo0 : g0.gameOver = false := (hAgo hal0).trans hgo
    refine river_raf_nn _ i _ _ ?_ ?_ ?_ ?_
    · exact hal0
    · exact hgo0
    · exact ⟨h0.2.1, h0.2.2.1, h0.2.2.2.1, h0.2.2.2.2.1, h0.2.2.2.2.2.2⟩
    · intro hb
      have hmil : (0 : ℚ) ≤ g0.mileage := h0.2.2.2.2.2.1
      dsimp only [GameState.nextFloat] at hb ⊢
      linarith

theorem processTurn_nn2 (g : GameState) (i : ℕ) (a : String) (hres : ResNonneg g)
    (hgo : g.gameOver = false) :
    ResNonnegNoFood (g.processTurn i a) ∧
    (0 ≤ (g.processTurn i a).food ∨
     (g.processTurn i a).turnPhase = TurnPhase.riders) := by
  unfold GameState.processTurn
  split
  · exact ⟨nofood_of hres, Or.inl hres.1⟩
  · dsimp only
    split
    · exact ⟨nofood_of hres, Or.inl hres.1⟩
    · split
      · split
        · split
          · have hh : ResNonneg (GameState.handleHunting
                { g with turnPhase := TurnPhase.mainMenu } i) :=
              handleHunting_nonneg _ i hres
            exact ⟨nofood_of hh, Or.inl hh.1⟩
          · next hb _ =>
            have hb' : (50 : ℚ) ≤ g.bullets := hb
            have hful : ResNonneg
                { ({ g with turnPhase := TurnPhase.mainMenu } :
                    GameState).getShootingPrompt.2 with
                    turnPhase := TurnPhase.hunting
                    huntWord := ({ g with turnPhase := TurnPhase.mainMenu } :
                      GameState).getShootingPrompt.1
                    bullets := ({ g with turnPhase := TurnPhase.mainMenu } :
                      GameState).getShootingPrompt.2.bullets - 50 } := by
              refine ⟨hres.1, ?_, hres.2.2.1, hres.2.2.2.1, hres.2.2.2.2.1,
                hres.2.2.2.2.2.1, hres.2.2.2.2.2.2⟩
              show (0 : ℚ) ≤ g.bullets - 50
              linarith
            exact ⟨nofood_of hful, Or.inl hful.1⟩
        · exact continueTravel_nn2 _ i hres hgo
      · exact continueTravel_nn2 _ i hres hgo

/-- C1 (amended): from a state with every resource nonnegative and the
engine not finished, every Turn Engine operation leaves ammunition,
clothing, supplies, cash, mileage and the oxen scalar nonnegative, and
leaves food nonnegative as well unless the operation suspended into the
riders phase — the one early return that escapes the clamp (see the
negative-food counterexample). -/
theorem resource_clamp_invariant (g : GameState) (i : ℕ) (op : EngineOp)
    (hres : ResNonneg g) (hgo : g.gameOver = false) :
    ResNonnegNoFood (applyOp g i op) ∧
    (0 ≤ (applyOp g i op).food ∨
     (applyOp g i op).turnPhase = TurnPhase.riders) := by
  cases op with
  | action a => exact processTurn_nn2 g i a hres hgo
  | huntShot ms =>
    have h := huntShoot_nonneg g i ms hres
    exact ⟨nofood_of h, Or.inl h.1⟩
  | riderTactic t =>
    have h := riderTactic_nonneg g i t hres
    exact ⟨nofood_of h, Or.inl h.1⟩
  | fortBuy it q =>
    have h := fortBuy_nonneg g it q hres
    exact ⟨nofood_of h, Or.inl h.1⟩
  | fortSell it q =>
    have h := fortSell_nonneg g it q hres
    exact ⟨nofood_of h, Or.inl h.1⟩
  | fortEnter =>
    have h := fortEnter_nonneg g
    exact ⟨nofood_of h, Or.inl h.1⟩
  | fortLeave =>
    have h := fortLeave_nonneg g hres
    exact ⟨nofood_of h, Or.inl h.1⟩

/-- Witness for C1 at the concrete rider-suspension state. -/
theorem resource_clamp_invariant_witness :
    (ResNonneg cx1 ∧ cx1.gameOver = false) ∧
    ResNonnegNoFood (applyOp cx1 0 (EngineOp.action "continue")) :=
  ⟨⟨by norm_num [ResNonneg, cx1, baseGame], rfl⟩,
   (resource_clamp_invariant cx1 0 (EngineOp.action "continue")
     (by norm_num [ResNonneg, cx1, baseGame]) rfl).1⟩

/-- C1 counterexample: from the fully nonnegative state `cx1` the continue
turn suspends into the riders phase holding food = -3: the clamp has not
run when the interactive sub-phase returns early. -/
theorem rider_suspension_negative_food :
    ResNonneg cx1 ∧
    (cx1.processTurn 0 "continue").turnPhase = TurnPhase.riders ∧
    (cx1.processTurn 0 "continue").food = -3 := by
  refine ⟨by norm_num [ResNonneg, cx1, baseGame], ?_, ?_⟩
  all_goals
    simp [GameState.processTurn, cx1, baseGame, humanPl, freshParty, partyNames,
      GameState.continueTravel, GameState.starvationDamage, GameState.playerAlive,
      GameState.playerIsCPU, GameState.nextFloat, Rng.nextFloat, PlayerType.isCPU,
      GameState.handleRiverCrossing, GameState.ridersAndFinish, GameState.checkRiders,
      GameState.nextIntn, Rng.nextInt, GameState.maybeFinishTurn, GameState.finishTurn]
  all_goals norm_num


end OnlineTrail
